import Mathlib

/-!
# FocusFlow: the time-block store and its route handlers

A shallow embedding of `models/Timeblock.js` (the SQL statements of class `TimeBlock`),
of the `time_blocks` table of `database/init.js`, and of the handlers of `server.js` that
mutate time blocks (`POST /timeblocks/create`, `POST /timeblocks/edit/:id`,
`POST /timeblocks/delete/:id`, `POST /api/quick-task`).

Modelling decisions.

* The database is explicit state: the rows of `time_blocks` in rowid order together with the
  `sqlite_sequence` counter that `INTEGER PRIMARY KEY AUTOINCREMENT` maintains.  Every
  model function takes the state and returns the new state next to the value the promise
  resolves with.  In the first part database calls are taken to complete (no I/O fault), so
  the `catch` branches of the handlers are not entered.
* `start_time` and `end_time` are declared `DATETIME`, which gives the columns NUMERIC
  affinity: a text that SQLite reads as a numeric literal is stored, and compared, as the
  number it denotes, and every other text stays TEXT (`SqlValue`, `affinity`).  Which texts are
  numeric literals, and the numbers they denote, is SQLite's matter and a parameter `numeric`
  of the statements that bind a text against these columns.  The SQL comparisons `<`, `<=`,
  `>`, `>=` and `ORDER BY` follow SQLite's order of values (`sqlLt`, `sqlLe`): numbers by
  value, every number before every text, texts bytewise (the BINARY collation).
* The handlers compare `new Date(end_time) <= new Date(start_time)`.  The constructor
  `new Date(text)` belongs to the JavaScript runtime and is a parameter `newDate` of the
  handlers: it yields the time value in milliseconds, or `none` for an Invalid Date (NaN).
* A form field is a `String`; the empty text also stands for a field that was not sent
  (both are falsy in JavaScript and the handlers treat them alike).
* `req.params.id` is the row id that the text of the URL segment denotes; `req.session.userId`
  is the id that `requireAuth` found in the session.
* `CURRENT_TIMESTAMP` is the argument `now` of the statements that use it; it is a text of the
  form "YYYY-MM-DD HH:MM:SS", which is no numeric literal, so `created_at` and `updated_at`
  hold texts.
* `getStats` computes in SQLite's REAL arithmetic, that is in IEEE 754 binary64 with rounding
  to nearest, ties to even (`Real64`).  `julianday` is a parameter (`none` for `NULL`), and so
  is the way `SUM` and `AVG` accumulate their REAL arguments (`sumReal`), which differs
  between versions of SQLite.
* The quick-task handler works on `Date` objects in local time.  Their time values are
  integers of milliseconds; the local-time methods follow ECMAScript and take the time zone of
  the process as a parameter.  The handler reads the clock twice (`today`, `now`); both
  readings are arguments.  `parseInt` and `toISOString` are parameters like `newDate`.
* `User.delete` acts on the file as a whole (`Database`: the table `users` next to the
  time-block part); whether SQLite enforces the foreign key of `time_blocks` is an argument.
* Namespace `Async` repeats the Store methods and the handlers with the `err` of every
  database call as an argument, so that the `catch` branches are entered; with no error they
  coincide with the definitions above.
-/

namespace FocusFlow

/-! ## The table `time_blocks` -/

/-- A value of column `start_time` or `end_time`: a number (INTEGER or REAL, given by its exact
value) or a text.  `NULL` does not occur, the columns being `NOT NULL`. -/
inductive SqlValue where
  | num (value : ℚ)
  | text (value : String)
deriving DecidableEq

/-- NUMERIC affinity applied to a text, as SQLite does to a text bound to `start_time` or
`end_time` in `INSERT` and `UPDATE` and to a text compared with these columns.  `numeric` is
SQLite's reading of a text as a numeric literal ("2024", "+002024", "1e2", "2024.50"): the
number it denotes, or `none` for every other text, which stays TEXT. -/
def affinity (numeric : String → Option ℚ) (text : String) : SqlValue :=
  match numeric text with
  | some q => SqlValue.num q
  | none => SqlValue.text text

/-- A row of table `time_blocks` (`database/init.js`); `description` is nullable. -/
structure Row where
  id : Nat
  user_id : Nat
  title : String
  description : Option String
  start_time : SqlValue
  end_time : SqlValue
  created_at : String
  updated_at : String
deriving DecidableEq

/-- The database file as far as time blocks go: the rows of `time_blocks` in rowid order and
the largest rowid ever handed out (`sqlite_sequence`, kept because of `AUTOINCREMENT`). -/
structure Db where
  time_blocks : List Row
  seq : Nat
deriving DecidableEq

/-- The database right after `initializeDatabase` created the tables. -/
def Db.empty : Db := { time_blocks := [], seq := 0 }

/-- The constraints SQLite maintains on `time_blocks`: `id` is a primary key (no two rows share
an id) and, by `AUTOINCREMENT`, ids are positive and never exceed the sequence counter. -/
def Db.WF (db : Db) : Prop :=
  (db.time_blocks.map Row.id).Nodup ∧ ∀ r ∈ db.time_blocks, 0 < r.id ∧ r.id ≤ db.seq

/-! ## Comparison of stored values -/

/-- SQLite `a < b` on two values of the time columns: two numbers compare by value, a number
is less than every text, and two texts compare under the BINARY collation (the bytes are
compared with `memcmp`, and on UTF-8 that is the lexicographic order of the code points). -/
def sqlLt : SqlValue → SqlValue → Bool
  | SqlValue.num p, SqlValue.num q => decide (p < q)
  | SqlValue.num _, SqlValue.text _ => true
  | SqlValue.text _, SqlValue.num _ => false
  | SqlValue.text a, SqlValue.text b => decide (a.toList < b.toList)

/-- SQLite `a <= b` on two values of the time columns; the order is total, so this is
"not `b < a`". -/
def sqlLe (a b : SqlValue) : Bool := !sqlLt b a

/-- A key under which SQLite's order of values is the usual order: the numbers in their order,
followed by the texts in theirs. -/
def sqlKey : SqlValue → ℚ ⊕ₗ String
  | SqlValue.num q => toLex (Sum.inl q)
  | SqlValue.text s => toLex (Sum.inr s)

/-- The linear order on values that `sqlKey` induces; `sqlLt` and `sqlLe` decide it
(`sqlLt_iff`, `sqlLe_iff`). -/
instance : LinearOrder SqlValue :=
  LinearOrder.lift' sqlKey (fun a b h => by
    cases a <;> cases b <;> simp [sqlKey] at h <;> simp [h])

/-! ## `models/Timeblock.js` -/

namespace TimeBlock

/-- `SELECT * FROM time_blocks WHERE user_id = ? ORDER BY start_time DESC`, resolved with all
rows (`db.all`).  SQL leaves the order of rows with equal keys open; the model sorts stably. -/
def findByUserId (db : Db) (userId : Nat) : List Row :=
  (db.time_blocks.filter (fun r => decide (r.user_id = userId))).insertionSort
    (fun a b => sqlLe b.start_time a.start_time = true)

/-- `SELECT * FROM time_blocks WHERE id = ?`, resolved with the first row or `undefined`
(`db.get`). -/
def findById (db : Db) (id : Nat) : Option Row :=
  db.time_blocks.find? (fun r => decide (r.id = id))

/-- `INSERT INTO time_blocks (user_id, title, description, start_time, end_time) VALUES (...)`,
resolved with `this.lastID`.  The new rowid is one more than the sequence counter, and
`created_at`, `updated_at` take their default `CURRENT_TIMESTAMP`.  `title` and `description`
are TEXT columns and keep a text as it is; the two time columns apply `affinity`. -/
def create (numeric : String → Option ℚ) (db : Db) (now : String) (userId : Nat)
    (title : String) (description : Option String) (startTime endTime : String) : Db × Nat :=
  let lastID := db.seq + 1
  ({ time_blocks := db.time_blocks ++
       [{ id := lastID, user_id := userId, title := title, description := description,
          start_time := affinity numeric startTime, end_time := affinity numeric endTime,
          created_at := now, updated_at := now }],
     seq := lastID },
   lastID)

/-- `UPDATE time_blocks SET title = ?, description = ?, start_time = ?, end_time = ?,
updated_at = CURRENT_TIMESTAMP WHERE id = ?`, resolved with `this.changes`.  The two time
columns apply `affinity` to the texts bound to them. -/
def update (numeric : String → Option ℚ) (db : Db) (now : String) (id : Nat)
    (title : String) (description : Option String) (startTime endTime : String) : Db × Nat :=
  ({ db with
       time_blocks := db.time_blocks.map (fun r =>
         if r.id = id then
           { r with title := title, description := description,
                    start_time := affinity numeric startTime,
                    end_time := affinity numeric endTime, updated_at := now }
         else r) },
   (db.time_blocks.filter (fun r => decide (r.id = id))).length)

/-- `DELETE FROM time_blocks WHERE id = ?`, resolved with `this.changes`. -/
def delete (db : Db) (id : Nat) : Db × Nat :=
  ({ db with time_blocks := db.time_blocks.filter (fun r => !decide (r.id = id)) },
   (db.time_blocks.filter (fun r => decide (r.id = id))).length)

/-- `SELECT * FROM time_blocks WHERE user_id = ? AND start_time >= ? AND end_time <= ?
ORDER BY start_time ASC`.  The two texts bound to the comparisons take the affinity of the
column they are compared with. -/
def findByUserIdAndDateRange (numeric : String → Option ℚ) (db : Db) (userId : Nat)
    (startDate endDate : String) : List Row :=
  (db.time_blocks.filter (fun r =>
      decide (r.user_id = userId) && sqlLe (affinity numeric startDate) r.start_time
        && sqlLe r.end_time (affinity numeric endDate))).insertionSort
    (fun a b => sqlLe a.start_time b.start_time = true)

/-- The `WHERE` condition that `findOverlapping` puts after `user_id = ?`:
`(start_time <= ? AND end_time > ?) OR (start_time < ? AND end_time >= ?) OR
(start_time >= ? AND end_time <= ?)` with parameters
`startTime, startTime, endTime, endTime, startTime, endTime`, each of which takes the affinity
of the column it is compared with. -/
def overlapCondition (numeric : String → Option ℚ) (r : Row) (startTime endTime : String) :
    Bool :=
  (sqlLe r.start_time (affinity numeric startTime) &&
    sqlLt (affinity numeric startTime) r.end_time) ||
  (sqlLt r.start_time (affinity numeric endTime) &&
    sqlLe (affinity numeric endTime) r.end_time) ||
  (sqlLe (affinity numeric startTime) r.start_time &&
    sqlLe r.end_time (affinity numeric endTime))

/-- The query of `findOverlapping(userId, startTime, endTime, excludeId = null)`.  The clause
`AND id != ?` is appended only when `excludeId` is truthy, so neither `null` nor `0` adds it.
There is no `ORDER BY`; rows come in table order. -/
def findOverlapping (numeric : String → Option ℚ) (db : Db) (userId : Nat)
    (startTime endTime : String) (excludeId : Option Nat) : List Row :=
  db.time_blocks.filter (fun r =>
    decide (r.user_id = userId) && overlapCondition numeric r startTime endTime &&
      (match excludeId with
       | some k => if k ≠ 0 then decide (r.id ≠ k) else true
       | none => true))

end TimeBlock

/-! ## The route handlers of `server.js` -/

/-- The fields `{ title, start_time, end_time, description }` that the create and edit
handlers take from `req.body`. -/
structure TimeBlockForm where
  title : String
  start_time : String
  end_time : String
  description : String
deriving DecidableEq, Repr

/-- Where a handler redirects: `/dashboard`, `/timeblocks/create`, or `/timeblocks/edit/:id`
with the id of the request. -/
inductive Redirect where
  | dashboard
  | timeblocksCreate
  | timeblocksEdit (id : Nat)
deriving DecidableEq, Repr

/-- What a handler leaves for its caller: the flash message it stored in the session
(`req.session.error_msg` or `req.session.success_msg`) and the redirect it sent. -/
structure Response where
  error_msg : Option String
  success_msg : Option String
  redirect : Redirect
deriving DecidableEq, Repr

/-- The response of a handler that set `req.session.error_msg` and redirected. -/
def Response.error (msg : String) (target : Redirect) : Response :=
  { error_msg := some msg, success_msg := none, redirect := target }

/-- The response of a handler that set `req.session.success_msg` and redirected. -/
def Response.success (msg : String) (target : Redirect) : Response :=
  { error_msg := none, success_msg := some msg, redirect := target }

/-- JavaScript `!field` for a form field: true for the empty text (and for a missing field,
which the model writes as the empty text). -/
def falsy (field : String) : Bool := decide (field = "")

/-- JavaScript `description || null`. -/
def orNull (field : String) : Option String := if field = "" then none else some field

/-- JavaScript `a <= b` on two `Date` objects: both are converted to their time values and a
comparison with NaN (an Invalid Date) is false. -/
def dateLe (a b : Option Int) : Bool :=
  match a, b with
  | some x, some y => decide (x ≤ y)
  | _, _ => false

/-- The chronological reading of "a is strictly before b" for two `Date` values: both are
valid dates and the time value of `a` is the smaller one. -/
def dateLt (a b : Option Int) : Bool :=
  match a, b with
  | some x, some y => decide (x < y)
  | _, _ => false

/-- The flash text of the missing-field check. -/
def msgRequired : String := "Title, start time, and end time are required"

/-- The flash text of the interval check. -/
def msgInterval : String := "End time must be after start time"

/-- The flash text of the lookup and ownership check. -/
def msgNotFound : String := "Time block not found"

/-- Handler `app.post('/timeblocks/create', requireAuth, ...)`. -/
def postTimeblocksCreate (numeric : String → Option ℚ) (newDate : String → Option Int)
    (now : String) (db : Db) (userId : Nat) (body : TimeBlockForm) : Db × Response :=
  if falsy body.title || falsy body.start_time || falsy body.end_time then
    (db, Response.error msgRequired Redirect.timeblocksCreate)
  else if dateLe (newDate body.end_time) (newDate body.start_time) then
    (db, Response.error msgInterval Redirect.timeblocksCreate)
  else
    let r := TimeBlock.create numeric db now userId body.title (orNull body.description)
      body.start_time body.end_time
    (r.1, Response.success "Time block created successfully!" Redirect.dashboard)

/-- Handler `app.post('/timeblocks/edit/:id', requireAuth, ...)`. -/
def postTimeblocksEdit (numeric : String → Option ℚ) (newDate : String → Option Int)
    (now : String) (db : Db) (userId : Nat) (id : Nat) (body : TimeBlockForm) : Db × Response :=
  match TimeBlock.findById db id with
  | none => (db, Response.error msgNotFound Redirect.dashboard)
  | some timeBlock =>
    if timeBlock.user_id ≠ userId then
      (db, Response.error msgNotFound Redirect.dashboard)
    else if falsy body.title || falsy body.start_time || falsy body.end_time then
      (db, Response.error msgRequired (Redirect.timeblocksEdit id))
    else if dateLe (newDate body.end_time) (newDate body.start_time) then
      (db, Response.error msgInterval (Redirect.timeblocksEdit id))
    else
      let r := TimeBlock.update numeric db now id body.title (orNull body.description)
        body.start_time body.end_time
      (r.1, Response.success "Time block updated successfully!" Redirect.dashboard)

/-- Handler `app.post('/timeblocks/delete/:id', requireAuth, ...)`. -/
def postTimeblocksDelete (db : Db) (userId : Nat) (id : Nat) : Db × Response :=
  match TimeBlock.findById db id with
  | none => (db, Response.error msgNotFound Redirect.dashboard)
  | some timeBlock =>
    if timeBlock.user_id ≠ userId then
      (db, Response.error msgNotFound Redirect.dashboard)
    else
      let r := TimeBlock.delete db id
      (r.1, Response.success "Time block deleted successfully!" Redirect.dashboard)

/-! ## Sample data for the worked examples -/

/-- A stand-in for `new Date(text)` in the worked examples.  It agrees with JavaScript, for a
process whose time zone is UTC, on the six date texts listed ("2024" and "2025" are read as
the first instant of the year) and on the texts "", "tomorrow" and "later", which are Invalid
Dates; the examples apply it to no other text. -/

def sampleDate (text : String) : Option Int :=
  if text = "2024" then some 1704067200000
  else if text = "2025" then some 1735689600000
  else if text = "2024-01-01T09:00" then some 1704099600000
  else if text = "2024-01-01T10:00" then some 1704103200000
  else if text = "2024-01-01T11:00" then some 1704106800000
  else if text = "2024-01-01T12:00" then some 1704110400000
  else none

/-- A stand-in for SQLite's reading of numeric literals in the worked examples.  It agrees with
SQLite on the texts "2024" and "2025", which denote the integers 2024 and 2025, and on the
date texts of the examples (which hold "-", "T", ":" or "Z") and the texts "tomorrow" and
"later", which are no numeric literals; the examples apply it to no other text. -/
def sampleNumeric (text : String) : Option ℚ :=
  if text = "2024" then some 2024
  else if text = "2025" then some 2025
  else none

/-- A block of user 1 from 10:00 to 11:00. -/
def sampleRow : Row :=
  { id := 1, user_id := 1, title := "Standup", description := none,
    start_time := SqlValue.text "2024-01-01T10:00", end_time := SqlValue.text "2024-01-01T11:00",
    created_at := "2024-01-01 08:00:00", updated_at := "2024-01-01 08:00:00" }

/-- A database holding only `sampleRow`. -/
def sampleDb : Db := { time_blocks := [sampleRow], seq := 1 }

/-- The value of `CURRENT_TIMESTAMP` in the worked examples. -/
def sampleNow : String := "2024-01-01 08:30:00"

/-- A form whose interval is inverted: it ends at 10:00 and starts at 11:00. -/
def invertedForm : TimeBlockForm :=
  { title := "Review", start_time := "2024-01-01T11:00", end_time := "2024-01-01T10:00",
    description := "" }

/-- The inverted form with the title left empty. -/
def untitledInvertedForm : TimeBlockForm :=
  { title := "", start_time := "2024-01-01T11:00", end_time := "2024-01-01T10:00",
    description := "" }

/-- A valid form: 11:00 to 12:00, with a description. -/
def validForm : TimeBlockForm :=
  { title := "Review", start_time := "2024-01-01T11:00", end_time := "2024-01-01T12:00",
    description := "quarterly numbers" }

/-- A form whose two time fields are filled with texts that are no dates. -/
def undatedForm : TimeBlockForm :=
  { title := "Lunch", start_time := "tomorrow", end_time := "later", description := "" }

/-! ## SQLite REAL arithmetic -/

/-- A finite IEEE 754 binary64 number (a REAL of SQLite), written `mant * 2 ^ exp`.  The
operations below return their result in lowest terms: `mant` is odd, or both fields are zero,
so that two results are the same number exactly when they are equal.  The sign of a zero is
not kept. -/
structure Real64 where
  mant : Int
  exp : Int
deriving DecidableEq

/-- The number of binary digits of `n`; the first argument bounds the recursion. -/
def bitsAux : Nat → Nat → Nat
  | 0, _ => 0
  | fuel + 1, n => if n = 0 then 0 else bitsAux fuel (n / 2) + 1

/-- The number of binary digits of `n`. -/
def bits (n : Nat) : Nat := bitsAux n n

/-- Halving an even magnitude while raising the exponent; the first argument bounds the
recursion. -/
def lowestTermsAux : Nat → Nat → Int → Nat × Int
  | 0, n, e => (n, e)
  | fuel + 1, n, e => if n % 2 = 0 then lowestTermsAux fuel (n / 2) (e + 1) else (n, e)

namespace Real64

/-- The number `±n * 2 ^ e` in lowest terms. -/
def lowestTerms (neg : Bool) (n : Nat) (e : Int) : Real64 :=
  if n = 0 then { mant := 0, exp := 0 }
  else
    let r := lowestTermsAux (bits n) n e
    { mant := if neg then -(r.1 : Int) else (r.1 : Int), exp := r.2 }

/-- Rounding to the 53 significant bits of binary64, to nearest and ties to even, of the number
`±(n + f) * 2 ^ e` where `0 <= f < 1` and `sticky` tells whether `f` is not zero.  `sticky` is
only set by `divNat`, which supplies more than 53 bits in `n`.  The exponent is not bounded:
overflow and gradual underflow are outside the model. -/
def round (neg : Bool) (n : Nat) (e : Int) (sticky : Bool) : Real64 :=
  let k := bits n - 53
  let q := n / 2 ^ k
  let r := n % 2 ^ k
  let half := 2 ^ k / 2
  let up : Bool :=
    decide (k ≠ 0) && (decide (half < r) || (decide (r = half) && (sticky || decide (q % 2 = 1))))
  lowestTerms neg (if up then q + 1 else q) (e + k)

/-- A natural number below `2 ^ 53` as a REAL. -/
def ofNat (n : Nat) : Real64 := round false n 0 false

/-- REAL addition `a + b`. -/
def add (a b : Real64) : Real64 :=
  let e := min a.exp b.exp
  let m := a.mant * 2 ^ (a.exp - e).toNat + b.mant * 2 ^ (b.exp - e).toNat
  round (decide (m < 0)) m.natAbs e false

/-- REAL subtraction `a - b`. -/
def sub (a b : Real64) : Real64 :=
  let e := min a.exp b.exp
  let m := a.mant * 2 ^ (a.exp - e).toNat - b.mant * 2 ^ (b.exp - e).toNat
  round (decide (m < 0)) m.natAbs e false

/-- REAL multiplication `a * b`. -/
def mul (a b : Real64) : Real64 :=
  round (decide (a.mant * b.mant < 0)) (a.mant * b.mant).natAbs (a.exp + b.exp) false

/-- REAL division `a / (double)n` by a count `n` with `0 < n < 2 ^ 53`. -/
def divNat (a : Real64) (n : Nat) : Real64 :=
  let s := bits n + 56
  let scaled := a.mant.natAbs * 2 ^ s
  round (decide (a.mant < 0)) (scaled / n) (a.exp - s) (decide (scaled % n ≠ 0))

/-- C `fabs(a) < fabs(b)`. -/
def absLt (a b : Real64) : Bool :=
  let e := min a.exp b.exp
  decide (a.mant.natAbs * 2 ^ (a.exp - e).toNat < b.mant.natAbs * 2 ^ (b.exp - e).toNat)

end Real64

/-- The accumulation of REAL values by `SUM` and `AVG` in SQLite before version 3.44: the values
are added one by one to a REAL that starts at zero. -/
def sumPlain (values : List Real64) : Real64 :=
  values.foldl Real64.add (Real64.ofNat 0)

/-- One step of the compensated summation (`kahanBabuskaNeumaierStep` of SQLite since version
3.44) on the pair of the running sum and the running error term. -/
def kahanStep (acc : Real64 × Real64) (r : Real64) : Real64 × Real64 :=
  let s := acc.1
  let t := Real64.add s r
  if Real64.absLt r s then (t, Real64.add acc.2 (Real64.add (Real64.sub s t) r))
  else (t, Real64.add acc.2 (Real64.add (Real64.sub r t) s))

/-- The accumulation of REAL values by `SUM` and `AVG` in SQLite since version 3.44: the
compensated sum plus its error term. -/
def sumKahan (values : List Real64) : Real64 :=
  let acc := values.foldl kahanStep (Real64.ofNat 0, Real64.ofNat 0)
  Real64.add acc.1 acc.2

/-! ## `TimeBlock.getStats` -/

/-- The row that `getStats` resolves with: `total_blocks`, `total_hours`, `avg_duration`; the
two aggregates are REAL numbers, or `NULL` (`none`) when no value went into them. -/
structure Stats where
  total_blocks : Nat
  total_hours : Option Real64
  avg_duration : Option Real64
deriving DecidableEq

namespace TimeBlock

/-- The SQL expression `(julianday(end_time) - julianday(start_time)) * 24` on one row.
`julianday` is SQLite's date function, a parameter here: the Julian day number of the stored
value as a REAL, or `NULL` for a value it cannot read; arithmetic with `NULL` is `NULL`.  The
subtraction and the multiplication by the integer 24 are REAL operations. -/
def durationHours (julianday : SqlValue → Option Real64) (r : Row) : Option Real64 :=
  match julianday r.end_time, julianday r.start_time with
  | some e, some s => some (Real64.mul (Real64.sub e s) (Real64.ofNat 24))
  | _, _ => none

/-- `SELECT COUNT(*) as total_blocks, SUM((julianday(end_time) - julianday(start_time)) * 24)
as total_hours, AVG((julianday(end_time) - julianday(start_time)) * 24) as avg_duration FROM
time_blocks WHERE user_id = ?`.  `COUNT(*)` counts every selected row; `SUM` and `AVG` skip
the rows whose value is `NULL` and are `NULL` themselves when no value is left.  `sumReal` is
the accumulation of the values that are left, in table order (`sumPlain` or `sumKahan`,
depending on the version of SQLite); `AVG` divides the same accumulated sum by the number of
values. -/
def getStats (julianday : SqlValue → Option Real64) (sumReal : List Real64 → Real64) (db : Db)
    (userId : Nat) : Stats :=
  let rows := db.time_blocks.filter (fun r => decide (r.user_id = userId))
  let values := rows.filterMap (durationHours julianday)
  { total_blocks := rows.length,
    total_hours := if values.isEmpty then none else some (sumReal values),
    avg_duration :=
      if values.isEmpty then none else some (Real64.divNat (sumReal values) values.length) }

end TimeBlock

/-- A stand-in for SQLite `julianday(value)` in the worked examples.  On the four date texts
of 2024-01-01 it is the REAL that SQLite returns, the milliseconds of the Julian day divided
by 86400000.0: 2460310.875 for 09:00, 2460310.9166666665 for 10:00, 2460310.9583333335 for
11:00 and 2460311.0 for 12:00.  It is `NULL` for the texts "tomorrow" and "later"; the
examples apply it to no other value. -/
def sampleJulianday (value : SqlValue) : Option Real64 :=
  if value = SqlValue.text "2024-01-01T09:00" then some { mant := 19682487, exp := -3 }
  else if value = SqlValue.text "2024-01-01T10:00" then
    some { mant := 5283477462537557, exp := -31 }
  else if value = SqlValue.text "2024-01-01T11:00" then
    some { mant := 5283477552016043, exp := -31 }
  else if value = SqlValue.text "2024-01-01T12:00" then some { mant := 2460311, exp := 0 }
  else none

/-- Three blocks of user 1 lasting one, two and three hours, and one block of user 2. -/
def statsDb : Db :=
  { time_blocks :=
      [{ id := 1, user_id := 1, title := "One", description := none,
         start_time := SqlValue.text "2024-01-01T09:00", end_time := SqlValue.text
             "2024-01-01T10:00",
         created_at := "2024-01-01 08:00:00", updated_at := "2024-01-01 08:00:00" },
       { id := 2, user_id := 2, title := "Other", description := none,
         start_time := SqlValue.text "2024-01-01T09:00", end_time := SqlValue.text
             "2024-01-01T11:00",
         created_at := "2024-01-01 08:00:00", updated_at := "2024-01-01 08:00:00" },
       { id := 3, user_id := 1, title := "Two", description := none,
         start_time := SqlValue.text "2024-01-01T10:00", end_time := SqlValue.text
             "2024-01-01T12:00",
         created_at := "2024-01-01 08:00:00", updated_at := "2024-01-01 08:00:00" },
       { id := 4, user_id := 1, title := "Three", description := none,
         start_time := SqlValue.text "2024-01-01T09:00", end_time := SqlValue.text
             "2024-01-01T12:00",
         created_at := "2024-01-01 08:00:00", updated_at := "2024-01-01 08:00:00" }],
    seq := 4 }

/-- The sample block of user 1 (one hour) next to the block that `undatedForm` leaves behind
when user 1 submits it to the create handler. -/
def undatedDb : Db :=
  (postTimeblocksCreate sampleNumeric sampleDate sampleNow sampleDb 1 undatedForm).1

/-- A title of 201 characters. -/
def longTitle : String := String.mk (List.replicate 201 'a')

/-- The valid form with the title of 201 characters. -/
def longTitleForm : TimeBlockForm := { validForm with title := longTitle }

/-! ## JavaScript `Date` arithmetic

The time value of a `Date` is an `Int` of milliseconds since the epoch, `none` standing for
NaN (an Invalid Date).  The definitions follow the abstract operations of ECMAScript
("Date Objects") under their names there. -/

/-- ECMAScript `msPerDay`. -/
def msPerDay : Int := 86400000

/-- ECMAScript `msPerHour`. -/
def msPerHour : Int := 3600000

/-- ECMAScript `msPerMinute`. -/
def msPerMinute : Int := 60000

/-- ECMAScript `msPerSecond`. -/
def msPerSecond : Int := 1000

/-- The time zone of the process as ECMAScript uses it, `LocalTZA(t, isUTC)`: the offset of
local time from UTC in milliseconds, asked for at a UTC time value (`atUtc`) and at a local
time value (`atLocal`).  For a local time that a transition repeats or skips, `atLocal` is the
offset before the transition. -/
structure TimeZone where
  atUtc : Int → Int
  atLocal : Int → Int

/-- A zone whose local time is UTC plus a constant offset. -/
def TimeZone.fixed (offset : Int) : TimeZone :=
  { atUtc := fun _ => offset, atLocal := fun _ => offset }

/-- ECMAScript `LocalTime(t)`. -/
def LocalTime (tz : TimeZone) (t : Int) : Int := t + tz.atUtc t

/-- ECMAScript `UTC(t)`. -/
def UTC (tz : TimeZone) (t : Int) : Int := t - tz.atLocal t

/-- ECMAScript `Day(t)`, the day number: floor of `t / msPerDay`. -/
def Day (t : Int) : Int := t / msPerDay

/-- ECMAScript `TimeWithinDay(t)`. -/
def TimeWithinDay (t : Int) : Int := t % msPerDay

/-- ECMAScript `HourFromTime(t)`. -/
def HourFromTime (t : Int) : Int := (t / msPerHour) % 24

/-- ECMAScript `MinFromTime(t)`. -/
def MinFromTime (t : Int) : Int := (t / msPerMinute) % 60

/-- ECMAScript `SecFromTime(t)`. -/
def SecFromTime (t : Int) : Int := (t / msPerSecond) % 60

/-- ECMAScript `msFromTime(t)`. -/
def msFromTime (t : Int) : Int := t % msPerSecond

/-- ECMAScript `MakeTime(hour, min, sec, ms)` on integers. -/
def MakeTime (hour min sec ms : Int) : Int :=
  hour * msPerHour + min * msPerMinute + sec * msPerSecond + ms

/-- ECMAScript `MakeDate(day, time)`. -/
def MakeDate (day time : Int) : Int := day * msPerDay + time

/-- ECMAScript `TimeClip(time)`: NaN outside the range of a `Date`. -/
def TimeClip (t : Int) : Option Int :=
  if -8640000000000000 ≤ t ∧ t ≤ 8640000000000000 then some t else none

namespace JsDate

/-- `date.setHours(hour, min, sec, ms)`: the local day of the date with the given time of day;
NaN when the date or an argument is NaN. -/
def setHours (tz : TimeZone) (date hour min sec ms : Option Int) : Option Int :=
  match date, hour, min, sec, ms with
  | some t, some h, some m, some s, some milli =>
    TimeClip (UTC tz (MakeDate (Day (LocalTime tz t)) (MakeTime h m s milli)))
  | _, _, _, _, _ => none

/-- `date.setHours(hour)`: minutes, seconds and milliseconds are those of the local time of
the date. -/
def setHour (tz : TimeZone) (date hour : Option Int) : Option Int :=
  match date, hour with
  | some t, some h =>
    TimeClip (UTC tz (MakeDate (Day (LocalTime tz t))
      (MakeTime h (MinFromTime (LocalTime tz t)) (SecFromTime (LocalTime tz t))
        (msFromTime (LocalTime tz t)))))
  | _, _ => none

/-- `date.getHours()`. -/
def getHours (tz : TimeZone) (date : Option Int) : Option Int :=
  date.map (fun t => HourFromTime (LocalTime tz t))

/-- `date.setDate(date.getDate() + 1)`.  With `t` the local time, `setDate` builds
`MakeDate(MakeDay(YearFromTime(t), MonthFromTime(t), dt), TimeWithinDay(t))`; for
`dt = DateFromTime(t) + 1` the day that `MakeDay` returns is `Day(t) + 1`. -/
def setDateToNext (tz : TimeZone) (date : Option Int) : Option Int :=
  match date with
  | some t =>
    TimeClip (UTC tz (MakeDate (Day (LocalTime tz t) + 1) (TimeWithinDay (LocalTime tz t))))
  | none => none

end JsDate

/-! ## The quick-task handler of `server.js` -/

/-- `text.split(':')` on the characters of a text. -/
def splitColon : List Char → List (List Char)
  | [] => [[]]
  | c :: cs =>
    if c = ':' then [] :: splitColon cs
    else
      match splitColon cs with
      | [] => [[c]]
      | p :: ps => (c :: p) :: ps

/-- The runtime functions that the quick-task handler calls: the time zone behind the local
`Date` methods, `parseInt` (NaN is `none`) and `Date.prototype.toISOString` on a valid time
value. -/
structure JsRuntime where
  tz : TimeZone
  parseInt : String → Option Int
  toISOString : Int → String

/-- Lines 585 to 599 of `server.js`: the start and end `Date` that the quick-task handler
resolves from the parsed hours and minutes.  `today` and `now` are the two readings of the
clock (`new Date()`), taken before and after the times are built. -/
def quickTaskTimes (tz : TimeZone) (today now : Int) (hours minutes : Option Int) :
    Option Int × Option Int :=
  let startTime := JsDate.setHours tz (some today) hours minutes (some 0) (some 0)
  let endTime := JsDate.setHour tz startTime ((JsDate.getHours tz startTime).map (· + 1))
  if dateLt startTime (some now) then
    (JsDate.setDateToNext tz startTime, JsDate.setDateToNext tz endTime)
  else (startTime, endTime)

/-- What the quick-task handler sends: `res.status(400).json({ error })`,
`res.json({ success: true, message, timeBlock })` or `res.status(500).json({ error })`. -/
inductive QuickTaskReply where
  | badRequest (error : String)
  | ok (message : String) (timeBlock : Option Row)
  | serverError (error : String)
deriving DecidableEq

/-- Handler `app.post('/api/quick-task', requireAuth, ...)`.  `toISOString` throws a
`RangeError` on an Invalid Date, which the `catch` answers with status 500 before
`TimeBlock.create` is called. -/
def postApiQuickTask (numeric : String → Option ℚ) (rt : JsRuntime) (today now : Int)
    (sqlNow : String) (db : Db) (userId : Nat) (taskName taskTime : String) :
    Db × QuickTaskReply :=
  if falsy taskName || falsy taskTime then
    (db, QuickTaskReply.badRequest "Task name and time are required")
  else
    let parts := (splitColon taskTime.toList).map String.mk
    let hours := (parts.get? 0).bind rt.parseInt
    let minutes := (parts.get? 1).bind rt.parseInt
    match quickTaskTimes rt.tz today now hours minutes with
    | (some startTime, some endTime) =>
      let r := TimeBlock.create numeric db sqlNow userId taskName none
        (rt.toISOString startTime) (rt.toISOString endTime)
      (r.1, QuickTaskReply.ok "Task added successfully" (TimeBlock.findById r.1 r.2))
    | _ => (db, QuickTaskReply.serverError "Failed to add task")

/-- A time zone is regular when its offsets stay below one day in size, when reading a local
time as an instant and that instant as local time never goes back (it moves forward over a
skipped local time and otherwise returns the same reading), and when a local time on a later
calendar day than the local date of an instant is not before that instant. -/
def TimeZone.Regular (tz : TimeZone) : Prop :=
  (∀ t, -msPerDay ≤ tz.atUtc t ∧ tz.atUtc t ≤ msPerDay) ∧
  (∀ t, -msPerDay ≤ tz.atLocal t ∧ tz.atLocal t ≤ msPerDay) ∧
  (∀ x, x ≤ LocalTime tz (UTC tz x)) ∧
  (∀ x n, Day (LocalTime tz n) < Day x → n ≤ UTC tz x)

/-- New York around the end of daylight saving time on 2024-11-03: local time is UTC-4 before
06:00 UTC of that day and UTC-5 from then on.  The local times from 01:00 to 02:00 of that day
occur twice and are read with the offset before the transition. -/
def newYorkFall2024 : TimeZone :=
  { atUtc := fun t => if t < 1730613600000 then -14400000 else -18000000,
    atLocal := fun t => if t < 1730599200000 then -14400000 else -18000000 }

/-! ## The interval test of the specification -/

/-- Modelled on the words of the claim, for comparison with `TimeBlock.overlapCondition`: the
standard test that the half-open intervals `[xStart, xEnd)` and `[s, e)` intersect,
`xStart < e` and `s < xEnd`, in the order of the stored values. -/
def halfOpenIntersect (xStart xEnd s e : SqlValue) : Bool :=
  sqlLt xStart e && sqlLt s xEnd

/-- A form for 10:00 to 12:00, which overlaps the sample block 10:00 to 11:00. -/
def overlappingForm : TimeBlockForm :=
  { title := "Call", start_time := "2024-01-01T10:00", end_time := "2024-01-01T12:00",
    description := "" }

/-! ## The table `users` and `User.delete` -/

/-- A row of table `users` (`database/init.js`). -/
structure UserRow where
  id : Nat
  username : String
  password_hash : String
  created_at : String
deriving DecidableEq, Repr

/-- The file `focusflow.db`: the table `users` next to the time-block part. -/
structure Database where
  users : List UserRow
  store : Db
deriving DecidableEq

namespace User

/-- `DELETE FROM users WHERE id = ?` of `models/User.js`, resolved with `this.changes`.
`time_blocks.user_id` is declared `REFERENCES users (id) ON DELETE CASCADE`, and SQLite acts on
that clause only on a connection whose `PRAGMA foreign_keys` is on.  `foreignKeys` is that
setting on the connection that `new sqlite3.Database(dbPath)` opens: the code never issues
the pragma, so it is the default of the SQLite library, which is off.  With the setting on,
the time blocks of every deleted user row are deleted too. -/
def delete (foreignKeys : Bool) (d : Database) (id : Nat) : Database × Nat :=
  let deleted := d.users.filter (fun u => decide (u.id = id))
  ({ users := d.users.filter (fun u => !decide (u.id = id)),
     store :=
       if foreignKeys && !deleted.isEmpty then
         { d.store with
             time_blocks := d.store.time_blocks.filter (fun r => !decide (r.user_id = id)) }
       else d.store },
   deleted.length)

end User

/-- User 1 with the sample block. -/
def sampleDatabase : Database :=
  { users := [{ id := 1, username := "ada", password_hash := "$2b$10$hash",
                created_at := "2024-01-01 07:00:00" }],
    store := sampleDb }

/-! ## Sample runtime for the quick-task examples -/

/-- A stand-in for `parseInt` in the worked examples: it agrees with JavaScript on the texts
"10" and "00"; the examples apply it to no other text. -/
def sampleParseInt (text : String) : Option Int :=
  if text = "10" then some 10 else if text = "00" then some 0 else none

/-- A stand-in for `toISOString` in the worked examples: it agrees with JavaScript on the time
values of 10:00, 11:00, 15:00 and 16:00 UTC of 2024-01-01; the examples apply it to no other
value. -/
def sampleToISOString (t : Int) : String :=
  if t = 1704103200000 then "2024-01-01T10:00:00.000Z"
  else if t = 1704106800000 then "2024-01-01T11:00:00.000Z"
  else if t = 1704121200000 then "2024-01-01T15:00:00.000Z"
  else if t = 1704124800000 then "2024-01-01T16:00:00.000Z"
  else ""

/-- The runtime of a process whose time zone is UTC, for the worked examples. -/
def sampleRuntime : JsRuntime :=
  { tz := TimeZone.fixed 0, parseInt := sampleParseInt, toISOString := sampleToISOString }

/-- The database after user 1 quick-added the task "Call" for 10:00, the clock standing at
09:30 UTC of 2024-01-01. -/
def quickAddedDb : Db :=
  (postApiQuickTask sampleNumeric sampleRuntime 1704101400000 1704101400000 sampleNow
    Db.empty 1 "Call" "10:00").1

/-! ## `getDailyQuote` -/

/-- ECMAScript `DayFromYear(y)`: the day number of the first day of year `y`. -/
def DayFromYear (y : Int) : Int :=
  365 * (y - 1970) + (y - 1969) / 4 - (y - 1901) / 100 + (y - 1601) / 400

/-- ECMAScript `YearFromTime(t)`: the largest year `y` with `DayFromYear(y) <= Day(t)`.  It is
within one of the estimate `1970 + Day(t) * 400 / 146097` (a year has 146097 / 400 days on
average); `YearFromTime_spec` below proves the characterisation. -/
def YearFromTime (t : Int) : Int :=
  if DayFromYear (1970 + Day t * 400 / 146097 + 1) ≤ Day t then 1970 + Day t * 400 / 146097 + 1
  else if DayFromYear (1970 + Day t * 400 / 146097) ≤ Day t then 1970 + Day t * 400 / 146097
  else 1970 + Day t * 400 / 146097 - 1

namespace JsDate

/-- `date.getFullYear()` on a valid date. -/
def getFullYear (tz : TimeZone) (t : Int) : Int := YearFromTime (LocalTime tz t)

/-- `new Date(year, 0, 0)`: local midnight of day 0 of January, the last day of the year
before.  `MakeDay(yr, 0, 0)` is `DayFromYear(yr) - 1`, and the constructor reads a year from 0
to 99 as `1900 + year`. -/
def newDateDayZero (tz : TimeZone) (year : Int) : Option Int :=
  TimeClip (UTC tz (MakeDate
    (DayFromYear (if 0 ≤ year ∧ year ≤ 99 then 1900 + year else year) - 1) (MakeTime 0 0 0 0)))

end JsDate

/-- The array `motivationalQuotes` of `server.js`. -/
def motivationalQuotes : List String :=
  ["The way to get started is to quit talking and begin doing. - Walt Disney",
   "Innovation distinguishes between a leader and a follower. - Steve Jobs",
   "Life is what happens to you while you\x27re busy making other plans. - John Lennon",
   "The future belongs to those who believe in the beauty of their dreams. - Eleanor Roosevelt",
   "It is during our darkest moments that we must focus to see the light. - Aristotle",
   "Success is not final, failure is not fatal: it is the courage to continue that counts. - Winston Churchill",
   "The only impossible journey is the one you never begin. - Tony Robbins",
   "In the midst of winter, I found there was, within me, an invincible summer. - Albert Camus",
   "Be yourself; everyone else is already taken. - Oscar Wilde",
   "The only way to do great work is to love what you do. - Steve Jobs"]

/-- The `quoteIndex` that `getDailyQuote` computes, `now` being the clock reading
(`new Date()`): `Math.floor((now - start) / (1000 * 60 * 60 * 24)) % motivationalQuotes.length`
with `start = new Date(now.getFullYear(), 0, 0)`.  `none` is NaN; JavaScript `%` takes the
sign of the dividend. -/
def dailyQuoteIndex (tz : TimeZone) (now : Int) : Option Int :=
  match JsDate.newDateDayZero tz (JsDate.getFullYear tz now) with
  | some start =>
    some (Int.tmod ((now - start) / (1000 * 60 * 60 * 24)) motivationalQuotes.length)
  | none => none

/-- Function `getDailyQuote()` of `server.js`: `motivationalQuotes[quoteIndex]`, which is
`undefined` (`none`) for an index that is NaN, negative or beyond the array. -/
def getDailyQuote (tz : TimeZone) (now : Int) : Option String :=
  match dailyQuoteIndex tz now with
  | some quoteIndex =>
    if 0 ≤ quoteIndex then motivationalQuotes.get? quoteIndex.toNat else none
  | none => none

/-- New York in the first half of 2024: local time is UTC-5 before 07:00 UTC of 2024-03-10,
when daylight saving time begins, and UTC-4 from then on.  The local times from 02:00 to 03:00
of that day are skipped and are read with the offset before the transition. -/
def newYorkSpring2024 : TimeZone :=
  { atUtc := fun t => if t < 1710054000000 then -18000000 else -14400000,
    atLocal := fun t => if t < 1710039600000 then -18000000 else -14400000 }

/-! ## Store calls that can fail

Every method of `models/Timeblock.js` wraps one sqlite3 call in a promise whose callback is
`if (err) { reject(err); } else { resolve(value); }`.  Namespace `Async` repeats the methods
and the handlers with the `err` of each call as an argument (`none` for `null`); a rejected
promise is `Except.error`, and a call that failed leaves the database as it was. -/

/-- The `err` that a sqlite3 callback receives when the database call failed. -/
structure SqlError where
  message : String
deriving DecidableEq, Repr

/-- The callback of every promise in `models/Timeblock.js`:
`if (err) { reject(err); } else { resolve(value); }`. -/
def settle {α : Type} (err : Option SqlError) (value : α) : Except SqlError α :=
  match err with
  | some e => Except.error e
  | none => Except.ok value

/-- What a reading handler sends: a page, CSV file or JSON array built from the rows, a JSON
error with its status, or a flash error with the path of the redirect. -/
inductive ReadReply where
  | page (timeBlocks : List Row)
  | csv (timeBlocks : List Row)
  | json (timeBlocks : List Row)
  | jsonError (status : Nat) (error : String)
  | flashError (error_msg : String) (path : String)
deriving DecidableEq

namespace Async

namespace TimeBlock

/-- `TimeBlock.findByUserId(userId)` as a promise. -/
def findByUserId (err : Option SqlError) (db : Db) (userId : Nat) :
    Except SqlError (List Row) :=
  settle err (FocusFlow.TimeBlock.findByUserId db userId)

/-- `TimeBlock.findById(id)` as a promise. -/
def findById (err : Option SqlError) (db : Db) (id : Nat) : Except SqlError (Option Row) :=
  settle err (FocusFlow.TimeBlock.findById db id)

/-- `TimeBlock.create(...)` as a promise; it resolves with the new database and `lastID`. -/
def create (numeric : String → Option ℚ) (err : Option SqlError) (db : Db) (now : String)
    (userId : Nat) (title : String) (description : Option String)
    (startTime endTime : String) : Except SqlError (Db × Nat) :=
  settle err
    (FocusFlow.TimeBlock.create numeric db now userId title description startTime endTime)

/-- `TimeBlock.update(...)` as a promise. -/
def update (numeric : String → Option ℚ) (err : Option SqlError) (db : Db) (now : String)
    (id : Nat) (title : String) (description : Option String)
    (startTime endTime : String) : Except SqlError (Db × Nat) :=
  settle err
    (FocusFlow.TimeBlock.update numeric db now id title description startTime endTime)

/-- `TimeBlock.delete(id)` as a promise. -/
def delete (err : Option SqlError) (db : Db) (id : Nat) : Except SqlError (Db × Nat) :=
  settle err (FocusFlow.TimeBlock.delete db id)

/-- `TimeBlock.findByUserIdAndDateRange(...)` as a promise. -/
def findByUserIdAndDateRange (numeric : String → Option ℚ) (err : Option SqlError) (db : Db)
    (userId : Nat) (startDate endDate : String) : Except SqlError (List Row) :=
  settle err
    (FocusFlow.TimeBlock.findByUserIdAndDateRange numeric db userId startDate endDate)

/-- `TimeBlock.findOverlapping(...)` as a promise. -/
def findOverlapping (numeric : String → Option ℚ) (err : Option SqlError) (db : Db)
    (userId : Nat) (startTime endTime : String) (excludeId : Option Nat) :
    Except SqlError (List Row) :=
  settle err
    (FocusFlow.TimeBlock.findOverlapping numeric db userId startTime endTime excludeId)

/-- `TimeBlock.getStats(userId)` as a promise. -/
def getStats (err : Option SqlError) (julianday : SqlValue → Option Real64)
    (sumReal : List Real64 → Real64) (db : Db) (userId : Nat) : Except SqlError Stats :=
  settle err (FocusFlow.TimeBlock.getStats julianday sumReal db userId)

end TimeBlock

/-- Handler `POST /timeblocks/create` with its `try` and `catch`. -/
def postTimeblocksCreate (numeric : String → Option ℚ) (newDate : String → Option Int)
    (now : String) (db : Db) (userId : Nat) (body : TimeBlockForm)
    (errCreate : Option SqlError) : Db × Response :=
  if falsy body.title || falsy body.start_time || falsy body.end_time then
    (db, Response.error msgRequired Redirect.timeblocksCreate)
  else if dateLe (newDate body.end_time) (newDate body.start_time) then
    (db, Response.error msgInterval Redirect.timeblocksCreate)
  else
    match TimeBlock.create numeric errCreate db now userId body.title
        (orNull body.description)
        body.start_time body.end_time with
    | Except.ok r =>
      (r.1, Response.success "Time block created successfully!" Redirect.dashboard)
    | Except.error _ =>
      (db, Response.error "Error creating time block. Please try again."
        Redirect.timeblocksCreate)

/-- Handler `POST /timeblocks/edit/:id` with its `try` and `catch`. -/
def postTimeblocksEdit (numeric : String → Option ℚ) (newDate : String → Option Int)
    (now : String) (db : Db) (userId : Nat) (id : Nat) (body : TimeBlockForm)
    (errFind errUpdate : Option SqlError) : Db × Response :=
  match TimeBlock.findById errFind db id with
  | Except.error _ =>
    (db, Response.error "Error updating time block. Please try again."
      (Redirect.timeblocksEdit id))
  | Except.ok none => (db, Response.error msgNotFound Redirect.dashboard)
  | Except.ok (some timeBlock) =>
    if timeBlock.user_id ≠ userId then
      (db, Response.error msgNotFound Redirect.dashboard)
    else if falsy body.title || falsy body.start_time || falsy body.end_time then
      (db, Response.error msgRequired (Redirect.timeblocksEdit id))
    else if dateLe (newDate body.end_time) (newDate body.start_time) then
      (db, Response.error msgInterval (Redirect.timeblocksEdit id))
    else
      match TimeBlock.update numeric errUpdate db now id body.title
          (orNull body.description)
          body.start_time body.end_time with
      | Except.ok r =>
        (r.1, Response.success "Time block updated successfully!" Redirect.dashboard)
      | Except.error _ =>
        (db, Response.error "Error updating time block. Please try again."
          (Redirect.timeblocksEdit id))

/-- Handler `POST /timeblocks/delete/:id` with its `try` and `catch`. -/
def postTimeblocksDelete (db : Db) (userId : Nat) (id : Nat)
    (errFind errDelete : Option SqlError) : Db × Response :=
  match TimeBlock.findById errFind db id with
  | Except.error _ => (db, Response.error "Error deleting time block" Redirect.dashboard)
  | Except.ok none => (db, Response.error msgNotFound Redirect.dashboard)
  | Except.ok (some timeBlock) =>
    if timeBlock.user_id ≠ userId then
      (db, Response.error msgNotFound Redirect.dashboard)
    else
      match TimeBlock.delete errDelete db id with
      | Except.ok r =>
        (r.1, Response.success "Time block deleted successfully!" Redirect.dashboard)
      | Except.error _ => (db, Response.error "Error deleting time block" Redirect.dashboard)

/-- Handler `POST /api/quick-task` with its `try` and `catch`.  When `TimeBlock.create`
resolved and the `TimeBlock.findById` after it rejects, the row stays inserted and the reply
is the error. -/
def postApiQuickTask (numeric : String → Option ℚ) (rt : JsRuntime) (today now : Int)
    (sqlNow : String) (db : Db) (userId : Nat) (taskName taskTime : String)
    (errCreate errFind : Option SqlError) : Db × QuickTaskReply :=
  if falsy taskName || falsy taskTime then
    (db, QuickTaskReply.badRequest "Task name and time are required")
  else
    match quickTaskTimes rt.tz today now
        ((((splitColon taskTime.toList).map String.mk).get? 0).bind rt.parseInt)
        ((((splitColon taskTime.toList).map String.mk).get? 1).bind rt.parseInt) with
    | (some startTime, some endTime) =>
      match TimeBlock.create numeric errCreate db sqlNow userId taskName none
          (rt.toISOString startTime) (rt.toISOString endTime) with
      | Except.ok r =>
        match TimeBlock.findById errFind r.1 r.2 with
        | Except.ok timeBlock => (r.1, QuickTaskReply.ok "Task added successfully" timeBlock)
        | Except.error _ => (r.1, QuickTaskReply.serverError "Failed to add task")
      | Except.error _ => (db, QuickTaskReply.serverError "Failed to add task")
    | _ => (db, QuickTaskReply.serverError "Failed to add task")

/-- Handler `GET /dashboard`. -/
def getDashboard (db : Db) (userId : Nat) (err : Option SqlError) : ReadReply :=
  match TimeBlock.findByUserId err db userId with
  | Except.ok timeBlocks => ReadReply.page timeBlocks
  | Except.error _ => ReadReply.flashError "Error loading dashboard" "/login"

/-- JavaScript `new Date(value)` on a value read from a time column: a text goes through
`newDate`, and a number is a time value in milliseconds, which `TimeClip` turns into NaN
when it lies outside the range of a `Date` and truncates to an integer otherwise. -/
def newDateOfValue (newDate : String → Option Int) : SqlValue → Option Int
  | SqlValue.text s => newDate s
  | SqlValue.num q =>
    if (-8640000000000000 : ℚ) ≤ q ∧ q ≤ 8640000000000000 then some (Int.tdiv q.num q.den)
    else none

/-- Handler `GET /timeblocks/edit/:id`.  The page calls `formatDateTimeForInput` on both
times, and `toISOString` throws on an Invalid Date, which the `catch` answers as well. -/
def getTimeblocksEdit (newDate : String → Option Int) (db : Db) (userId : Nat) (id : Nat)
    (err : Option SqlError) : ReadReply :=
  match TimeBlock.findById err db id with
  | Except.error _ => ReadReply.flashError "Error loading time block" "/dashboard"
  | Except.ok none => ReadReply.flashError msgNotFound "/dashboard"
  | Except.ok (some timeBlock) =>
    if timeBlock.user_id ≠ userId then ReadReply.flashError msgNotFound "/dashboard"
    else if (newDateOfValue newDate timeBlock.start_time).isNone ||
        (newDateOfValue newDate timeBlock.end_time).isNone then
      ReadReply.flashError "Error loading time block" "/dashboard"
    else ReadReply.page [timeBlock]

/-- Handler `GET /export`. -/
def getExport (db : Db) (userId : Nat) (err : Option SqlError) : ReadReply :=
  match TimeBlock.findByUserId err db userId with
  | Except.ok timeBlocks =>
    if timeBlocks.length = 0 then ReadReply.flashError "No time blocks to export" "/dashboard"
    else ReadReply.csv timeBlocks
  | Except.error _ => ReadReply.flashError "Error exporting time blocks" "/dashboard"

/-- Handler `GET /api/timeblocks`. -/
def getApiTimeblocks (db : Db) (userId : Nat) (err : Option SqlError) : ReadReply :=
  match TimeBlock.findByUserId err db userId with
  | Except.ok timeBlocks => ReadReply.json timeBlocks
  | Except.error _ => ReadReply.jsonError 500 "Failed to fetch time blocks"

end Async

/-- A failed database call, for the worked examples. -/
def sampleError : SqlError := { message := "SQLITE_IOERR: disk I/O error" }

/-- A form from "2024" to "2025".  JavaScript reads both texts as dates (the first instant of
the year) and SQLite reads both as integers. -/
def yearForm : TimeBlockForm :=
  { title := "Plan", start_time := "2024", end_time := "2025", description := "" }

/-- A form whose start is the text "2024" and whose end is the text "later", which is no
date. -/
def yearToLaterForm : TimeBlockForm :=
  { title := "Plan", start_time := "2024", end_time := "later", description := "" }

/-- A stand-in for `new Date(text)` in a process whose time zone is New York, for the worked
example on the owner's list: in January local time is UTC-5, so the form texts for 11:00 and
12:00 of 2024-01-01 denote 16:00 and 17:00 UTC; the example applies it to no other text. -/
def sampleDateNewYork (text : String) : Option Int :=
  if text = "2024-01-01T11:00" then some 1704124800000
  else if text = "2024-01-01T12:00" then some 1704128400000
  else none

/-- The database of a process in New York after user 1 submitted the create form for 11:00 to
12:00 (local time) and then quick-added the task "Call" for 10:00, the clock standing at 09:30
local time of 2024-01-01 (14:30 UTC). -/
def newYorkDb : Db :=
  (postApiQuickTask sampleNumeric
    { tz := newYorkSpring2024, parseInt := sampleParseInt, toISOString := sampleToISOString }
    1704119400000 1704119400000 sampleNow
    (postTimeblocksCreate sampleNumeric sampleDateNewYork sampleNow Db.empty 1 validForm).1 1
    "Call" "10:00").1

/-! ## Facts about the comparison of values -/

theorem sqlKey_lt_iff (a b : SqlValue) : a < b ↔ sqlKey a < sqlKey b := Iff.rfl

theorem sqlLt_iff (a b : SqlValue) : sqlLt a b = true ↔ a < b := by
  rw [sqlKey_lt_iff]
  cases a <;> cases b <;>
    simp [sqlLt, sqlKey, Sum.Lex.inl_lt_inl_iff, Sum.Lex.inr_lt_inr_iff, Sum.Lex.inl_lt_inr,
      Sum.Lex.not_inr_lt_inl, String.lt_iff_toList_lt]

theorem sqlLe_iff (a b : SqlValue) : sqlLe a b = true ↔ a ≤ b := by
  simp [sqlLe, Bool.not_eq_true', ← Bool.not_eq_true, sqlLt_iff]

theorem sqlLt_false_iff (a b : SqlValue) : sqlLt a b = false ↔ b ≤ a := by
  rw [← Bool.not_eq_true, sqlLt_iff, not_lt]

theorem affinity_of_none {numeric : String → Option ℚ} {text : String}
    (h : numeric text = none) : affinity numeric text = SqlValue.text text := by
  simp [affinity, h]

theorem affinity_of_some {numeric : String → Option ℚ} {text : String} {q : ℚ}
    (h : numeric text = some q) : affinity numeric text = SqlValue.num q := by
  simp [affinity, h]

/-! ## Facts about `Date` comparison -/

theorem dateLe_true_iff (a b : Option Int) :
    dateLe a b = true ↔ ∃ x y, a = some x ∧ b = some y ∧ x ≤ y := by
  cases a <;> cases b <;> simp [dateLe]

theorem dateLt_true_iff (a b : Option Int) :
    dateLt a b = true ↔ ∃ x y, a = some x ∧ b = some y ∧ x < y := by
  cases a <;> cases b <;> simp [dateLt]

theorem dateLe_false_of_dateLt {a b : Option Int} (h : dateLt a b = true) :
    dateLe b a = false := by
  obtain ⟨x, y, rfl, rfl, hxy⟩ := (dateLt_true_iff a b).1 h
  simp [dateLe, hxy]

/-! ## Facts about lookup by id -/

theorem findById_some {db : Db} {id : Nat} {r : Row} (h : TimeBlock.findById db id = some r) :
    r ∈ db.time_blocks ∧ r.id = id := by
  unfold TimeBlock.findById at h
  exact ⟨List.mem_of_find?_eq_some h, by simpa using List.find?_some h⟩

theorem find_id_of_nodup {l : List Row} (hnd : (l.map Row.id).Nodup) {r : Row} (hr : r ∈ l) :
    l.find? (fun x => decide (x.id = r.id)) = some r := by
  induction l with
  | nil => cases hr
  | cons x xs ih =>
    rw [List.map_cons, List.nodup_cons] at hnd
    rcases List.mem_cons.1 hr with rfl | hmem
    · simp
    · have hne : x.id ≠ r.id := fun heq => hnd.1 (heq ▸ List.mem_map_of_mem Row.id hmem)
      simp [List.find?_cons, hne, ih hnd.2 hmem]

theorem findById_of_mem {db : Db} (hwf : db.WF) {r : Row} (hr : r ∈ db.time_blocks) :
    TimeBlock.findById db r.id = some r :=
  find_id_of_nodup hwf.1 hr

theorem findById_none_iff (db : Db) (id : Nat) :
    TimeBlock.findById db id = none ↔ ∀ r ∈ db.time_blocks, r.id ≠ id := by
  simp [TimeBlock.findById, List.find?_eq_none]

/-! ## The table constraints are kept by every statement -/

theorem wf_empty : Db.empty.WF := by
  simp [Db.WF, Db.empty]

theorem wf_create (numeric : String → Option ℚ)
    {db : Db} (hwf : db.WF) (now : String) (userId : Nat) (title : String)
    (description : Option String) (startTime endTime : String) :
    (TimeBlock.create numeric db now userId title description startTime endTime).1.WF := by
  obtain ⟨hnd, hb⟩ := hwf
  refine ⟨?_, ?_⟩
  · simp only [TimeBlock.create, List.map_append, List.map_cons, List.map_nil]
    refine List.Nodup.append hnd (List.nodup_singleton _) ?_
    intro i hi hi2
    obtain ⟨r, hr, rfl⟩ := List.mem_map.1 hi
    have := (hb r hr).2
    simp at hi2
    omega
  · intro r hr
    simp only [TimeBlock.create, List.mem_append, List.mem_singleton] at hr
    rcases hr with hr | rfl
    · have := hb r hr
      simp only [TimeBlock.create]
      omega
    · simp [TimeBlock.create]

theorem map_id_update (l : List Row) (now : String) (id : Nat) (title : String)
    (description : Option String) (startTime endTime : SqlValue) :
    (l.map (fun r =>
        if r.id = id then
          { r with title := title, description := description, start_time := startTime,
                   end_time := endTime, updated_at := now }
        else r)).map Row.id = l.map Row.id := by
  rw [List.map_map]
  apply List.map_congr_left
  intro r _
  by_cases h : r.id = id <;> simp [h]

theorem wf_update (numeric : String → Option ℚ)
    {db : Db} (hwf : db.WF) (now : String) (id : Nat) (title : String)
    (description : Option String) (startTime endTime : String) :
    (TimeBlock.update numeric db now id title description startTime endTime).1.WF := by
  obtain ⟨hnd, hb⟩ := hwf
  refine ⟨?_, ?_⟩
  · simp only [TimeBlock.update]
    rw [map_id_update]
    exact hnd
  · intro r hr
    simp only [TimeBlock.update, List.mem_map] at hr
    obtain ⟨r0, hr0, rfl⟩ := hr
    have := hb r0 hr0
    by_cases h : r0.id = id <;> simpa [TimeBlock.update, h] using this

theorem wf_delete {db : Db} (hwf : db.WF) (id : Nat) : (TimeBlock.delete db id).1.WF := by
  obtain ⟨hnd, hb⟩ := hwf
  refine ⟨?_, ?_⟩
  · simp only [TimeBlock.delete]
    exact (List.filter_sublist _).map Row.id |>.nodup hnd
  · intro r hr
    simp only [TimeBlock.delete] at hr
    exact hb r (List.mem_of_mem_filter hr)

theorem findById_create (numeric : String → Option ℚ)
    {db : Db} (hwf : db.WF) (now : String) (userId : Nat) (title : String)
    (description : Option String) (startTime endTime : String) :
    TimeBlock.findById (TimeBlock.create numeric db now userId title description startTime
        endTime).1
        (TimeBlock.create numeric db now userId title description startTime endTime).2 =
      some { id := db.seq + 1, user_id := userId, title := title, description := description,
             start_time := affinity numeric startTime, end_time := affinity numeric endTime,
             created_at := now, updated_at := now } := by
  have hw := wf_create numeric hwf now userId title description startTime endTime
  have hmem : Row.mk (db.seq + 1) userId title description (affinity numeric startTime)
      (affinity numeric endTime) now now ∈
      (TimeBlock.create numeric db now userId title description startTime endTime).1.time_blocks :=
          by
    simp [TimeBlock.create]
  exact findById_of_mem hw hmem

theorem findById_delete (db : Db) (id : Nat) :
    TimeBlock.findById (TimeBlock.delete db id).1 id = none := by
  rw [findById_none_iff]
  intro r hr
  simp only [TimeBlock.delete] at hr
  simpa using (List.mem_filter.1 hr).2

/-! ## The handlers, branch by branch -/

theorem create_missing_field (numeric : String → Option ℚ)
    (newDate : String → Option Int) (now : String) (db : Db)
    (userId : Nat) (body : TimeBlockForm)
    (h : body.title = "" ∨ body.start_time = "" ∨ body.end_time = "") :
    postTimeblocksCreate numeric newDate now db userId body =
      (db, Response.error msgRequired Redirect.timeblocksCreate) := by
  unfold postTimeblocksCreate
  rw [if_pos]
  simpa [falsy, or_assoc] using h

theorem create_bad_interval (numeric : String → Option ℚ)
    (newDate : String → Option Int) (now : String) (db : Db)
    (userId : Nat) (body : TimeBlockForm)
    (ht : body.title ≠ "") (hs : body.start_time ≠ "") (he : body.end_time ≠ "")
    (h : dateLe (newDate body.end_time) (newDate body.start_time) = true) :
    postTimeblocksCreate numeric newDate now db userId body =
      (db, Response.error msgInterval Redirect.timeblocksCreate) := by
  unfold postTimeblocksCreate
  rw [if_neg (by simp [falsy, ht, hs, he]), if_pos h]

theorem create_accepted (numeric : String → Option ℚ)
    (newDate : String → Option Int) (now : String) (db : Db)
    (userId : Nat) (body : TimeBlockForm)
    (ht : body.title ≠ "") (hs : body.start_time ≠ "") (he : body.end_time ≠ "")
    (h : dateLe (newDate body.end_time) (newDate body.start_time) = false) :
    postTimeblocksCreate numeric newDate now db userId body =
      ((TimeBlock.create numeric db now userId body.title (orNull body.description)
          body.start_time body.end_time).1,
       Response.success "Time block created successfully!" Redirect.dashboard) := by
  unfold postTimeblocksCreate
  rw [if_neg (by simp [falsy, ht, hs, he]), if_neg (by simp [h])]

theorem edit_not_owner (numeric : String → Option ℚ)
    (newDate : String → Option Int) (now : String) (db : Db)
    (userId id : Nat) (body : TimeBlockForm)
    (h : ∀ r, TimeBlock.findById db id = some r → r.user_id ≠ userId) :
    postTimeblocksEdit numeric newDate now db userId id body =
      (db, Response.error msgNotFound Redirect.dashboard) := by
  unfold postTimeblocksEdit
  cases hf : TimeBlock.findById db id with
  | none => rfl
  | some r => simp [h r hf]

theorem edit_missing_field (numeric : String → Option ℚ)
    (newDate : String → Option Int) (now : String) (db : Db)
    (userId id : Nat) (body : TimeBlockForm) (r : Row)
    (hf : TimeBlock.findById db id = some r) (ho : r.user_id = userId)
    (h : body.title = "" ∨ body.start_time = "" ∨ body.end_time = "") :
    postTimeblocksEdit numeric newDate now db userId id body =
      (db, Response.error msgRequired (Redirect.timeblocksEdit id)) := by
  unfold postTimeblocksEdit
  simp only [hf]
  rw [if_neg (by simp [ho]), if_pos]
  simpa [falsy, or_assoc] using h

theorem edit_bad_interval (numeric : String → Option ℚ)
    (newDate : String → Option Int) (now : String) (db : Db)
    (userId id : Nat) (body : TimeBlockForm) (r : Row)
    (hf : TimeBlock.findById db id = some r) (ho : r.user_id = userId)
    (ht : body.title ≠ "") (hs : body.start_time ≠ "") (he : body.end_time ≠ "")
    (h : dateLe (newDate body.end_time) (newDate body.start_time) = true) :
    postTimeblocksEdit numeric newDate now db userId id body =
      (db, Response.error msgInterval (Redirect.timeblocksEdit id)) := by
  unfold postTimeblocksEdit
  simp only [hf]
  rw [if_neg (by simp [ho]), if_neg (by simp [falsy, ht, hs, he]), if_pos h]

theorem delete_not_owner (db : Db) (userId id : Nat)
    (h : ∀ r, TimeBlock.findById db id = some r → r.user_id ≠ userId) :
    postTimeblocksDelete db userId id = (db, Response.error msgNotFound Redirect.dashboard) := by
  unfold postTimeblocksDelete
  cases hf : TimeBlock.findById db id with
  | none => rfl
  | some r => simp [h r hf]

theorem delete_owner (db : Db) (userId id : Nat) (r : Row)
    (hf : TimeBlock.findById db id = some r) (ho : r.user_id = userId) :
    postTimeblocksDelete db userId id =
      ((TimeBlock.delete db id).1,
       Response.success "Time block deleted successfully!" Redirect.dashboard) := by
  unfold postTimeblocksDelete
  simp only [hf]
  rw [if_neg (by simp [ho])]

/-! ## The handlers keep the table constraints -/

theorem wf_postTimeblocksCreate (numeric : String → Option ℚ)
    (newDate : String → Option Int) (now : String) {db : Db}
    (hwf : db.WF) (userId : Nat) (body : TimeBlockForm) :
    (postTimeblocksCreate numeric newDate now db userId body).1.WF := by
  unfold postTimeblocksCreate
  split
  · exact hwf
  · split
    · exact hwf
    · exact wf_create numeric hwf now userId _ _ _ _

theorem wf_postTimeblocksEdit (numeric : String → Option ℚ)
    (newDate : String → Option Int) (now : String) {db : Db}
    (hwf : db.WF) (userId id : Nat) (body : TimeBlockForm) :
    (postTimeblocksEdit numeric newDate now db userId id body).1.WF := by
  unfold postTimeblocksEdit
  split
  · exact hwf
  · split
    · exact hwf
    · split
      · exact hwf
      · split
        · exact hwf
        · exact wf_update numeric hwf now id _ _ _ _

theorem wf_postTimeblocksDelete {db : Db} (hwf : db.WF) (userId id : Nat) :
    (postTimeblocksDelete db userId id).1.WF := by
  unfold postTimeblocksDelete
  split
  · exact hwf
  · split
    · exact hwf
    · exact wf_delete hwf id

/-! ## Claims -/

/-- C1, as amended: a create request, or an update request by the owner of the block, with
its end at or before its start changes no stored row and is answered with an error; the error
is the interval error when the title is filled in and the missing-field error when the title
is empty.  (`new Date("")` is an Invalid Date, which is hypothesis `hempty`.) -/
theorem inverted_interval_rejected (numeric : String → Option ℚ)
    (newDate : String → Option Int) (now : String) (db : Db)
    (userId : Nat) (body : TimeBlockForm) (hempty : newDate "" = none)
    (h : dateLe (newDate body.end_time) (newDate body.start_time) = true) :
    postTimeblocksCreate numeric newDate now db userId body =
        (db, Response.error (if body.title = "" then msgRequired else msgInterval)
               Redirect.timeblocksCreate) ∧
    ∀ id r, TimeBlock.findById db id = some r → r.user_id = userId →
      postTimeblocksEdit numeric newDate now db userId id body =
        (db, Response.error (if body.title = "" then msgRequired else msgInterval)
               (Redirect.timeblocksEdit id)) := by
  obtain ⟨x, y, hx, hy, -⟩ := (dateLe_true_iff _ _).1 h
  have he : body.end_time ≠ "" := fun hc => by rw [hc, hempty] at hx; cases hx
  have hs : body.start_time ≠ "" := fun hc => by rw [hc, hempty] at hy; cases hy
  by_cases ht : body.title = ""
  · simp only [ht, if_true]
    exact ⟨create_missing_field numeric newDate now db userId body (Or.inl ht),
      fun id r hf ho => edit_missing_field numeric newDate now db userId id body r hf ho (Or.inl
          ht)⟩
  · simp only [ht, if_false]
    exact ⟨create_bad_interval numeric newDate now db userId body ht hs he h,
      fun id r hf ho => edit_bad_interval numeric newDate now db userId id body r hf ho ht hs he h⟩

/-- Witness for C1: user 1 submits the inverted form, once to create and once to edit the
sample block; both answers carry the interval error and the database is the sample one. -/
theorem inverted_interval_rejected_witness :
    sampleDate "" = none ∧
    dateLe (sampleDate invertedForm.end_time) (sampleDate invertedForm.start_time) = true ∧
    postTimeblocksCreate sampleNumeric sampleDate sampleNow sampleDb 1 invertedForm =
      (sampleDb, Response.error msgInterval Redirect.timeblocksCreate) ∧
    postTimeblocksEdit sampleNumeric sampleDate sampleNow sampleDb 1 1 invertedForm =
      (sampleDb, Response.error msgInterval (Redirect.timeblocksEdit 1)) :=
  ⟨by decide, by decide,
   (inverted_interval_rejected sampleNumeric sampleDate sampleNow sampleDb 1 invertedForm
      (by decide) (by decide)).1,
   (inverted_interval_rejected sampleNumeric sampleDate sampleNow sampleDb 1 invertedForm
      (by decide) (by decide)).2 1 sampleRow (by decide) (by decide)⟩

/-- Counterexample to C1 as stated: the form ends (10:00) before it starts (11:00) and has
no title; create and the owner's update both answer with the missing-field error, which is
not the interval error. -/
theorem untitled_inverted_gets_required_error :
    dateLe (sampleDate untitledInvertedForm.end_time)
      (sampleDate untitledInvertedForm.start_time) = true ∧
    (TimeBlock.findById sampleDb 1).map Row.user_id = some 1 ∧
    (postTimeblocksCreate sampleNumeric sampleDate sampleNow sampleDb 1
        untitledInvertedForm).2.error_msg
      = some msgRequired ∧
    (postTimeblocksEdit sampleNumeric sampleDate sampleNow sampleDb 1 1
        untitledInvertedForm).2.error_msg
      = some msgRequired ∧
    msgRequired ≠ msgInterval := by
  decide

/-- C2, the code at the failing input: on the empty database user 1 submits a create form
whose time fields hold the texts "tomorrow" and "later".  Both are Invalid Dates, so
`new Date(end_time) <= new Date(start_time)` is false, the request is accepted and the row is
stored; its start is not before its end, neither as dates nor as stored texts. -/
theorem undated_form_is_stored :
    postTimeblocksCreate sampleNumeric sampleDate sampleNow Db.empty 1 undatedForm =
      ({ time_blocks := [{ id := 1, user_id := 1, title := "Lunch", description := none,
                           start_time := SqlValue.text "tomorrow", end_time := SqlValue.text
                               "later",
                           created_at := sampleNow, updated_at := sampleNow }],
         seq := 1 },
       Response.success "Time block created successfully!" Redirect.dashboard) ∧
    dateLt (sampleDate "tomorrow") (sampleDate "later") = false ∧
    sqlLt (SqlValue.text "tomorrow") (SqlValue.text "later") = false := by
  decide

/-- C3, as amended: for every owner, non-empty title, description and texts `start_time`,
`end_time` that denote dates with start before end, the create handler succeeds; the database
it leaves is the one `TimeBlock.create` produced, and `findById` at the id that
`TimeBlock.create` resolved with returns a row that carries the owner and the title that were
passed, the description that was passed (no description when the field was empty), and in
`start_time` and in `end_time` the text that was passed when SQLite does not read it as a
numeric literal, and the number it denotes when SQLite does. -/
theorem create_then_findById (numeric : String → Option ℚ) (newDate : String → Option Int)
    (now : String) (db : Db) (userId : Nat) (body : TimeBlockForm) (hwf : db.WF)
    (hempty : newDate "" = none) (ht : body.title ≠ "")
    (h : dateLt (newDate body.start_time) (newDate body.end_time) = true) :
    (postTimeblocksCreate numeric newDate now db userId body).2 =
        Response.success "Time block created successfully!" Redirect.dashboard ∧
    (postTimeblocksCreate numeric newDate now db userId body).1 =
        (TimeBlock.create numeric db now userId body.title (orNull body.description)
          body.start_time body.end_time).1 ∧
    ∃ r, TimeBlock.findById (postTimeblocksCreate numeric newDate now db userId body).1
            (TimeBlock.create numeric db now userId body.title (orNull body.description)
              body.start_time body.end_time).2 = some r ∧
      r.id = (TimeBlock.create numeric db now userId body.title (orNull body.description)
              body.start_time body.end_time).2 ∧
      r.user_id = userId ∧ r.title = body.title ∧
      (body.description = "" → r.description = none) ∧
      (body.description ≠ "" → r.description = some body.description) ∧
      (numeric body.start_time = none → r.start_time = SqlValue.text body.start_time) ∧
      (∀ q, numeric body.start_time = some q → r.start_time = SqlValue.num q) ∧
      (numeric body.end_time = none → r.end_time = SqlValue.text body.end_time) ∧
      (∀ q, numeric body.end_time = some q → r.end_time = SqlValue.num q) := by
  obtain ⟨x, y, hx, hy, -⟩ := (dateLt_true_iff _ _).1 h
  have hs : body.start_time ≠ "" := fun hc => by rw [hc, hempty] at hx; cases hx
  have he : body.end_time ≠ "" := fun hc => by rw [hc, hempty] at hy; cases hy
  have hacc :=
    create_accepted numeric newDate now db userId body ht hs he (dateLe_false_of_dateLt h)
  rw [hacc]
  refine ⟨rfl, rfl, _, findById_create numeric hwf now userId body.title
    (orNull body.description) body.start_time body.end_time, rfl, rfl, rfl, ?_, ?_,
    fun hn => affinity_of_none hn, fun q hq => affinity_of_some hq,
    fun hn => affinity_of_none hn, fun q hq => affinity_of_some hq⟩
  · intro hd
    simp [orNull, hd]
  · intro hd
    simp [orNull, hd]

/-- Witness for C3: user 2 creates the valid form in the sample database; the row found
under the new id 2 carries the description and the two texts of the form. -/
theorem create_then_findById_witness :
    sampleDb.WF ∧ sampleDate "" = none ∧ validForm.title ≠ "" ∧
    dateLt (sampleDate validForm.start_time) (sampleDate validForm.end_time) = true ∧
    (postTimeblocksCreate sampleNumeric sampleDate sampleNow sampleDb 2 validForm).2 =
        Response.success "Time block created successfully!" Redirect.dashboard ∧
    TimeBlock.findById
        (postTimeblocksCreate sampleNumeric sampleDate sampleNow sampleDb 2 validForm).1 2 =
      some { id := 2, user_id := 2, title := "Review",
             description := some "quarterly numbers",
             start_time := SqlValue.text "2024-01-01T11:00",
             end_time := SqlValue.text "2024-01-01T12:00",
             created_at := sampleNow, updated_at := sampleNow } :=
  ⟨by unfold Db.WF; decide, by decide, by decide, by decide,
   (create_then_findById sampleNumeric sampleDate sampleNow sampleDb 2 validForm
      (by unfold Db.WF; decide) (by decide) (by decide) (by decide)).1,
   by decide⟩

/-- Counterexample to C3 as stated: user 2 creates a block from "2024" to "2025", two texts
that denote dates with the start before the end.  The create handler succeeds, and the row
that `findById` returns under the new id 2 carries the numbers 2024 and 2025 in `start_time`
and `end_time`, which are not the texts that were passed. -/
theorem numeric_texts_do_not_round_trip :
    yearForm.title ≠ "" ∧
    dateLt (sampleDate yearForm.start_time) (sampleDate yearForm.end_time) = true ∧
    (postTimeblocksCreate sampleNumeric sampleDate sampleNow sampleDb 2 yearForm).2 =
        Response.success "Time block created successfully!" Redirect.dashboard ∧
    (TimeBlock.findById
        (postTimeblocksCreate sampleNumeric sampleDate sampleNow sampleDb 2 yearForm).1 2).map
      (fun r => (r.start_time, r.end_time)) = some (SqlValue.num 2024, SqlValue.num 2025) ∧
    SqlValue.num 2024 ≠ SqlValue.text yearForm.start_time ∧
    SqlValue.num 2025 ≠ SqlValue.text yearForm.end_time := by
  refine ⟨by decide, by decide, by decide, ?_, by simp, by simp⟩
  rfl

/-- C4: for every database and every two distinct owners `a` and `b`, every row that
`findByUserId b` returns belongs to `b` (so none belongs to `a`), every stored row of `b` is
returned, and the result is a rearrangement of the stored rows of `b`. -/
theorem findByUserId_partitions_by_owner (db : Db) (a b : Nat) (hab : a ≠ b) :
    (∀ r ∈ TimeBlock.findByUserId db b, r.user_id ≠ a) ∧
    (∀ r ∈ TimeBlock.findByUserId db b, r.user_id = b) ∧
    (∀ r ∈ db.time_blocks, r.user_id = b → r ∈ TimeBlock.findByUserId db b) ∧
    (TimeBlock.findByUserId db b).Perm
      (db.time_blocks.filter (fun r => decide (r.user_id = b))) := by
  have hmem : ∀ r, r ∈ TimeBlock.findByUserId db b ↔ r ∈ db.time_blocks ∧ r.user_id = b := by
    intro r
    simp [TimeBlock.findByUserId, List.mem_insertionSort, List.mem_filter]
  refine ⟨fun r hr hra => hab (hra.symm.trans ((hmem r).1 hr).2), fun r hr => ((hmem r).1 hr).2,
    fun r hr hb => (hmem r).2 ⟨hr, hb⟩, List.perm_insertionSort _ _⟩

/-- Witness for C4: in the sample database the list of user 2 holds no row of user 1. -/
theorem findByUserId_partitions_by_owner_witness :
    (1 : Nat) ≠ 2 ∧ ∀ r ∈ TimeBlock.findByUserId sampleDb 2, r.user_id ≠ 1 :=
  ⟨by decide, (findByUserId_partitions_by_owner sampleDb 1 2 (by decide)).1⟩

/-- C5: for every stored row owned by `a` and every caller `b` other than `a`, the update
request and the delete request of `b` for that id, whatever the form holds, are answered with
an error and return the database as it was. -/
theorem foreign_request_changes_nothing (numeric : String → Option ℚ)
    (newDate : String → Option Int) (now : String)
    (db : Db) (a b : Nat) (r : Row) (body : TimeBlockForm) (hwf : db.WF)
    (hr : r ∈ db.time_blocks) (ha : r.user_id = a) (hab : b ≠ a) :
    postTimeblocksEdit numeric newDate now db b r.id body =
        (db, Response.error msgNotFound Redirect.dashboard) ∧
    postTimeblocksDelete db b r.id = (db, Response.error msgNotFound Redirect.dashboard) := by
  have hf := findById_of_mem hwf hr
  have hno : ∀ x, TimeBlock.findById db r.id = some x → x.user_id ≠ b := by
    intro x hx
    rw [hf] at hx
    cases hx
    exact fun hc => hab (hc.symm.trans ha)
  exact ⟨edit_not_owner numeric newDate now db b r.id body hno, delete_not_owner db b r.id hno⟩

/-- Witness for C5: user 2 sends a valid edit form and a delete for block 1 of user 1. -/
theorem foreign_request_changes_nothing_witness :
    sampleDb.WF ∧ sampleRow ∈ sampleDb.time_blocks ∧ sampleRow.user_id = 1 ∧ (2 : Nat) ≠ 1 ∧
    postTimeblocksEdit sampleNumeric sampleDate sampleNow sampleDb 2 sampleRow.id validForm =
        (sampleDb, Response.error msgNotFound Redirect.dashboard) ∧
    postTimeblocksDelete sampleDb 2 sampleRow.id =
        (sampleDb, Response.error msgNotFound Redirect.dashboard) :=
  ⟨by unfold Db.WF; decide, by decide, by decide, by decide,
   foreign_request_changes_nothing sampleNumeric sampleDate sampleNow sampleDb 1 2 sampleRow
       validForm
     (by unfold Db.WF; decide) (by decide) (by decide) (by decide)⟩

/-- Counterexample to C6 as stated: block 1 belongs to user 1 and no block has id 7; user 2
gets the very same answer from update, and from delete, for the foreign id 1 and for the
missing id 7, so no Forbidden result differs from the NotFound result. -/
theorem foreign_answer_equals_missing_answer :
    TimeBlock.findById sampleDb 1 = some sampleRow ∧ sampleRow.user_id = 1 ∧
    TimeBlock.findById sampleDb 7 = none ∧
    postTimeblocksEdit sampleNumeric sampleDate sampleNow sampleDb 2 1 validForm =
      postTimeblocksEdit sampleNumeric sampleDate sampleNow sampleDb 2 7 validForm ∧
    postTimeblocksDelete sampleDb 2 1 = postTimeblocksDelete sampleDb 2 7 := by
  decide

/-- C6, as amended: update and delete called with an id that names no stored row fail with
the error "Time block not found", and called by a user who is not the owner of the stored
row they fail with that same error and the same redirect; in all four cases the database is
returned unchanged. -/
theorem missing_and_foreign_not_found (numeric : String → Option ℚ)
    (newDate : String → Option Int) (now : String)
    (db : Db) (userId missing : Nat) (r : Row) (body : TimeBlockForm) (hwf : db.WF)
    (hmiss : TimeBlock.findById db missing = none) (hr : r ∈ db.time_blocks)
    (hown : r.user_id ≠ userId) :
    postTimeblocksEdit numeric newDate now db userId missing body =
        (db, Response.error msgNotFound Redirect.dashboard) ∧
    postTimeblocksDelete db userId missing =
        (db, Response.error msgNotFound Redirect.dashboard) ∧
    postTimeblocksEdit numeric newDate now db userId r.id body =
        (db, Response.error msgNotFound Redirect.dashboard) ∧
    postTimeblocksDelete db userId r.id =
        (db, Response.error msgNotFound Redirect.dashboard) := by
  have hf := findById_of_mem hwf hr
  have h1 : ∀ x, TimeBlock.findById db missing = some x → x.user_id ≠ userId := by
    intro x hx
    rw [hmiss] at hx
    cases hx
  have h2 : ∀ x, TimeBlock.findById db r.id = some x → x.user_id ≠ userId := by
    intro x hx
    rw [hf] at hx
    cases hx
    exact hown
  exact ⟨edit_not_owner numeric newDate now db userId missing body h1,
    delete_not_owner db userId missing h1,
    edit_not_owner numeric newDate now db userId r.id body h2, delete_not_owner db userId r.id h2⟩

/-- Witness for C6: user 2 addresses the missing id 7 and block 1 of user 1. -/
theorem missing_and_foreign_not_found_witness :
    sampleDb.WF ∧ TimeBlock.findById sampleDb 7 = none ∧ sampleRow ∈ sampleDb.time_blocks ∧
    sampleRow.user_id ≠ 2 ∧
    postTimeblocksEdit sampleNumeric sampleDate sampleNow sampleDb 2 7 validForm =
        (sampleDb, Response.error msgNotFound Redirect.dashboard) ∧
    postTimeblocksDelete sampleDb 2 7 =
        (sampleDb, Response.error msgNotFound Redirect.dashboard) ∧
    postTimeblocksEdit sampleNumeric sampleDate sampleNow sampleDb 2 sampleRow.id validForm =
        (sampleDb, Response.error msgNotFound Redirect.dashboard) ∧
    postTimeblocksDelete sampleDb 2 sampleRow.id =
        (sampleDb, Response.error msgNotFound Redirect.dashboard) :=
  ⟨by unfold Db.WF; decide, by decide, by decide, by decide,
   missing_and_foreign_not_found sampleNumeric sampleDate sampleNow sampleDb 2 7 sampleRow validForm
     (by unfold Db.WF; decide) (by decide) (by decide) (by decide)⟩

/-- C7: in update the lookup and ownership check comes first.  Whenever the id names no
stored row, or names a row of another user, the answer is the not-found error and the
database is unchanged, whatever the form holds (empty title, end at or before start): the
answer is never the missing-field error nor the interval error. -/
theorem ownership_checked_before_validation (numeric : String → Option ℚ)
    (newDate : String → Option Int) (now : String)
    (db : Db) (userId id : Nat) (body : TimeBlockForm)
    (h : ∀ r, TimeBlock.findById db id = some r → r.user_id ≠ userId) :
    postTimeblocksEdit numeric newDate now db userId id body =
        (db, Response.error msgNotFound Redirect.dashboard) ∧
    (postTimeblocksEdit numeric newDate now db userId id body).2.error_msg ≠ some msgRequired ∧
    (postTimeblocksEdit numeric newDate now db userId id body).2.error_msg ≠ some msgInterval := by
  rw [edit_not_owner numeric newDate now db userId id body h]
  refine ⟨rfl, fun hc => ?_, fun hc => ?_⟩
  · simp [Response.error, msgNotFound, msgRequired] at hc
  · simp [Response.error, msgNotFound, msgInterval] at hc

/-- Witness for C7: user 2 sends the untitled, inverted form for block 1 of user 1. -/
theorem ownership_checked_before_validation_witness :
    (∀ r, TimeBlock.findById sampleDb 1 = some r → r.user_id ≠ 2) ∧
    untitledInvertedForm.title = "" ∧
    dateLe (sampleDate untitledInvertedForm.end_time)
      (sampleDate untitledInvertedForm.start_time) = true ∧
    postTimeblocksEdit sampleNumeric sampleDate sampleNow sampleDb 2 1 untitledInvertedForm =
        (sampleDb, Response.error msgNotFound Redirect.dashboard) :=
  ⟨by decide, by decide, by decide,
   (ownership_checked_before_validation sampleNumeric sampleDate sampleNow sampleDb 2 1
       untitledInvertedForm
     (by decide)).1⟩

/-- C8: delete is not idempotent.  For every id that names no stored row, delete answers with
an error (no success message) and returns the database unchanged.  And when the owner deletes
a stored row, the request succeeds, `findById` of that id is absent afterwards, and a second
delete of the same id by the same owner is answered with the not-found error and changes
nothing. -/
theorem delete_twice_fails (db : Db) (userId id : Nat) :
    (TimeBlock.findById db id = none →
      postTimeblocksDelete db userId id = (db, Response.error msgNotFound Redirect.dashboard) ∧
      (postTimeblocksDelete db userId id).2.success_msg = none) ∧
    (∀ r, TimeBlock.findById db id = some r → r.user_id = userId →
      (postTimeblocksDelete db userId id).2 =
          Response.success "Time block deleted successfully!" Redirect.dashboard ∧
      TimeBlock.findById (postTimeblocksDelete db userId id).1 id = none ∧
      postTimeblocksDelete (postTimeblocksDelete db userId id).1 userId id =
          ((postTimeblocksDelete db userId id).1,
           Response.error msgNotFound Redirect.dashboard)) := by
  constructor
  · intro hnone
    have h1 : ∀ x, TimeBlock.findById db id = some x → x.user_id ≠ userId := by
      intro x hx
      rw [hnone] at hx
      cases hx
    rw [delete_not_owner db userId id h1]
    exact ⟨rfl, rfl⟩
  · intro r hf ho
    rw [delete_owner db userId id r hf ho]
    have hgone := findById_delete db id
    refine ⟨rfl, hgone, ?_⟩
    apply delete_not_owner
    intro x hx
    rw [hgone] at hx
    cases hx

/-- Witness for C8: user 1 deletes block 1 of the sample database twice, and once the
missing id 7. -/
theorem delete_twice_fails_witness :
    TimeBlock.findById sampleDb 7 = none ∧
    postTimeblocksDelete sampleDb 1 7 =
      (sampleDb, Response.error msgNotFound Redirect.dashboard) ∧
    TimeBlock.findById sampleDb 1 = some sampleRow ∧ sampleRow.user_id = 1 ∧
    TimeBlock.findById (postTimeblocksDelete sampleDb 1 1).1 1 = none ∧
    postTimeblocksDelete (postTimeblocksDelete sampleDb 1 1).1 1 1 =
      ((postTimeblocksDelete sampleDb 1 1).1, Response.error msgNotFound Redirect.dashboard) :=
  ⟨by decide, ((delete_twice_fails sampleDb 1 7).1 (by decide)).1, by decide, by decide,
   ((delete_twice_fails sampleDb 1 1).2 sampleRow (by decide) (by decide)).2⟩

/-- What `findByUserIdAndDateRange` returns, in the order of the store: exactly the stored
rows of the owner with `start_time >= rangeStart` and `end_time <= rangeEnd` (each as often as
it is stored), in ascending order of `start_time`, and no stored row with
`start_time < rangeStart < end_time` or `start_time < rangeEnd < end_time`.  The comparisons
are SQLite's, between the stored values and the two texts after affinity. -/
theorem findByUserIdAndDateRange_in_store_order (numeric : String → Option ℚ) (db : Db)
    (userId : Nat) (rangeStart rangeEnd : String) :
    (∀ r, r ∈ TimeBlock.findByUserIdAndDateRange numeric db userId rangeStart rangeEnd ↔
      r ∈ db.time_blocks ∧ r.user_id = userId ∧
        sqlLe (affinity numeric rangeStart) r.start_time = true ∧
        sqlLe r.end_time (affinity numeric rangeEnd) = true) ∧
    (TimeBlock.findByUserIdAndDateRange numeric db userId rangeStart rangeEnd).Perm
      (db.time_blocks.filter (fun r =>
        decide (r.user_id = userId) && sqlLe (affinity numeric rangeStart) r.start_time
          && sqlLe r.end_time (affinity numeric rangeEnd))) ∧
    (TimeBlock.findByUserIdAndDateRange numeric db userId rangeStart rangeEnd).Sorted
      (fun a b => sqlLe a.start_time b.start_time = true) ∧
    (∀ r ∈ db.time_blocks,
      (sqlLt r.start_time (affinity numeric rangeStart) = true ∧
        sqlLt (affinity numeric rangeStart) r.end_time = true) ∨
      (sqlLt r.start_time (affinity numeric rangeEnd) = true ∧
        sqlLt (affinity numeric rangeEnd) r.end_time = true) →
      r ∉ TimeBlock.findByUserIdAndDateRange numeric db userId rangeStart rangeEnd) := by
  have hmem : ∀ r,
      r ∈ TimeBlock.findByUserIdAndDateRange numeric db userId rangeStart rangeEnd ↔
      r ∈ db.time_blocks ∧ r.user_id = userId ∧
        sqlLe (affinity numeric rangeStart) r.start_time = true ∧
        sqlLe r.end_time (affinity numeric rangeEnd) = true := by
    intro r
    simp [TimeBlock.findByUserIdAndDateRange, List.mem_insertionSort, List.mem_filter,
      and_assoc]
  haveI : IsTotal Row (fun a b => sqlLe a.start_time b.start_time = true) :=
    ⟨fun a b => by simp only [sqlLe_iff]; exact le_total _ _⟩
  haveI : IsTrans Row (fun a b => sqlLe a.start_time b.start_time = true) :=
    ⟨fun a b c => by simp only [sqlLe_iff]; exact le_trans⟩
  refine ⟨hmem, List.perm_insertionSort _ _, List.sorted_insertionSort _ _, ?_⟩
  intro r _ hpart hin
  obtain ⟨-, -, h1, h2⟩ := (hmem r).1 hin
  rw [sqlLe_iff] at h1 h2
  rcases hpart with ⟨h, -⟩ | ⟨-, h⟩
  · exact absurd ((sqlLt_iff _ _).1 h) (not_lt.2 h1)
  · exact absurd ((sqlLt_iff _ _).1 h) (not_lt.2 h2)

/-- C9, the code at the failing input: a process on UTC.  User 1 quick-added a task for 10:00;
it is stored from "2024-01-01T10:00:00.000Z" to "2024-01-01T11:00:00.000Z", the instants
10:00 and 11:00.  The range from "2024-01-01T10:00" to "2024-01-01T11:00", written the way the
forms write times, begins and ends at the same two instants, so the block has its start at or
after the start of the range and its end at or before the end of the range.  The range query
of user 1 returns nothing: it compares the stored texts, and the end of the block, being the
longer text, is not `<=` the end of the range. -/
theorem range_query_misses_contained_block :
    quickAddedDb.time_blocks.map (fun r => (r.user_id, r.start_time, r.end_time)) =
      [(1, SqlValue.text "2024-01-01T10:00:00.000Z",
           SqlValue.text "2024-01-01T11:00:00.000Z")] ∧
    quickTaskTimes sampleRuntime.tz 1704101400000 1704101400000 (some 10) (some 0) =
      (some 1704103200000, some 1704106800000) ∧
    sampleDate "2024-01-01T10:00" = some 1704103200000 ∧
    sampleDate "2024-01-01T11:00" = some 1704106800000 ∧
    sqlLe (SqlValue.text "2024-01-01T11:00:00.000Z") (SqlValue.text "2024-01-01T11:00") =
      false ∧
    TimeBlock.findByUserIdAndDateRange sampleNumeric quickAddedDb 1 "2024-01-01T10:00"
      "2024-01-01T11:00" = [] := by
  decide

/-- C10: for every database, owner and candidate `(startTime, endTime)`, `findOverlapping`
without `excludeId` returns exactly the stored rows of the owner for which at least one of
(a) `start_time <= startTime` and `end_time > startTime`, (b) `start_time < endTime` and
`end_time >= endTime`, (c) `start_time >= startTime` and `end_time <= endTime` holds; the
result is a sublist of the table, and no row of another owner is returned.  The comparisons
are the ones SQLite makes in the `WHERE` clause: between the stored values and the candidate
texts after affinity, numbers by value and before texts, texts bytewise. -/
theorem findOverlapping_three_cases (numeric : String → Option ℚ) (db : Db) (userId : Nat)
    (startTime endTime : String) :
    (∀ r, r ∈ TimeBlock.findOverlapping numeric db userId startTime endTime none ↔
      r ∈ db.time_blocks ∧ r.user_id = userId ∧
        ((sqlLe r.start_time (affinity numeric startTime) = true ∧
            sqlLt (affinity numeric startTime) r.end_time = true) ∨
         (sqlLt r.start_time (affinity numeric endTime) = true ∧
            sqlLe (affinity numeric endTime) r.end_time = true) ∨
         (sqlLe (affinity numeric startTime) r.start_time = true ∧
            sqlLe r.end_time (affinity numeric endTime) = true))) ∧
    (TimeBlock.findOverlapping numeric db userId startTime endTime none).Sublist
      db.time_blocks ∧
    (∀ r ∈ TimeBlock.findOverlapping numeric db userId startTime endTime none,
      r.user_id = userId) := by
  have hmem : ∀ r, r ∈ TimeBlock.findOverlapping numeric db userId startTime endTime none ↔
      r ∈ db.time_blocks ∧ r.user_id = userId ∧
        ((sqlLe r.start_time (affinity numeric startTime) = true ∧
            sqlLt (affinity numeric startTime) r.end_time = true) ∨
         (sqlLt r.start_time (affinity numeric endTime) = true ∧
            sqlLe (affinity numeric endTime) r.end_time = true) ∨
         (sqlLe (affinity numeric startTime) r.start_time = true ∧
            sqlLe r.end_time (affinity numeric endTime) = true)) := by
    intro r
    simp [TimeBlock.findOverlapping, TimeBlock.overlapCondition, List.mem_filter, or_assoc]
  exact ⟨hmem, List.filter_sublist _, fun r hr => ((hmem r).1 hr).2.1⟩

/-- Witness for C10: the sample block 10:00 to 11:00 is returned for the candidate
10:30 to 11:30 of its owner by case (a), and user 2 gets nothing for the same candidate.  For
the candidate "2024" to "2025", two texts that SQLite compares as numbers, the sample block is
not returned: a stored text is greater than every number, so its `end_time` is not `<=` 2025
and its `start_time` is neither `<=` 2024 nor `<` 2025. -/
theorem findOverlapping_three_cases_witness :
    sampleRow ∈ TimeBlock.findOverlapping sampleNumeric sampleDb 1 "2024-01-01T10:30"
      "2024-01-01T11:30" none ∧
    TimeBlock.findOverlapping sampleNumeric sampleDb 2 "2024-01-01T10:30" "2024-01-01T11:30"
      none = [] ∧
    TimeBlock.findOverlapping sampleNumeric sampleDb 1 "2024" "2025" none = [] ∧
    TimeBlock.findByUserIdAndDateRange sampleNumeric sampleDb 1 "2024" "2025" = [] :=
  ⟨((findOverlapping_three_cases sampleNumeric sampleDb 1 "2024-01-01T10:30"
       "2024-01-01T11:30").1 sampleRow).2 ⟨by decide, by decide, Or.inl (by decide)⟩,
   by decide, by decide, by decide⟩

/-! ## Facts about the overlap query -/

theorem overlapCondition_iff (numeric : String → Option ℚ) (r : Row) (s e : String) :
    TimeBlock.overlapCondition numeric r s e = true ↔
      (r.start_time ≤ affinity numeric s ∧ affinity numeric s < r.end_time) ∨
      (r.start_time < affinity numeric e ∧ affinity numeric e ≤ r.end_time) ∨
      (affinity numeric s ≤ r.start_time ∧ r.end_time ≤ affinity numeric e) := by
  simp [TimeBlock.overlapCondition, sqlLe_iff, sqlLt_iff, or_assoc]

theorem mem_findOverlapping (numeric : String → Option ℚ) (db : Db) (userId : Nat)
    (s e : String) (ex : Option Nat) (r : Row) :
    r ∈ TimeBlock.findOverlapping numeric db userId s e ex ↔
      r ∈ db.time_blocks ∧ r.user_id = userId ∧
        TimeBlock.overlapCondition numeric r s e = true ∧
        ∀ k, ex = some k → k ≠ 0 → r.id ≠ k := by
  unfold TimeBlock.findOverlapping
  rw [List.mem_filter]
  cases ex with
  | none => simp [and_assoc]
  | some k =>
    by_cases hk : k = 0
    · simp [hk, and_assoc]
    · simp [hk, and_assoc]

/-! ## Facts about the aggregates -/

theorem filterMap_eq_map_of_some {α β : Type} (f : α → Option β) (g : α → β) (l : List α)
    (h : ∀ a ∈ l, f a = some (g a)) : l.filterMap f = l.map g := by
  induction l with
  | nil => rfl
  | cons a l ih =>
    rw [List.filterMap_cons, h a (List.mem_cons_self a l), List.map_cons,
      ih (fun b hb => h b (List.mem_cons_of_mem a hb))]

theorem durationHours_filterMap (julianday : SqlValue → Option Real64) (l : List Row) :
    l.filterMap (TimeBlock.durationHours julianday) =
      (l.filter (fun r => (julianday r.start_time).isSome &&
        (julianday r.end_time).isSome)).map (fun r =>
        Real64.mul
          (Real64.sub ((julianday r.end_time).getD (Real64.ofNat 0))
            ((julianday r.start_time).getD (Real64.ofNat 0)))
          (Real64.ofNat 24)) := by
  induction l with
  | nil => rfl
  | cons a l ih =>
    rw [List.filterMap_cons, List.filter_cons, ih]
    cases hs : julianday a.start_time <;> cases he : julianday a.end_time <;>
      simp [TimeBlock.durationHours, hs, he]

/-! ## Claims on the overlap query and the aggregates -/

/-- C11, the code at the failing input: a process on UTC.  User 1 quick-added a task for
10:00; the block `X` is stored from "2024-01-01T10:00:00.000Z" to "2024-01-01T11:00:00.000Z",
the instants 10:00 and 11:00, so it starts before it ends.  The candidate from
"2024-01-01T11:00" to "2024-01-01T12:00", written the way the forms write times, starts before
it ends and begins at the instant 11:00, exactly where `X` ends.  `findOverlapping` returns
`X`: it compares the stored texts, and the end of `X`, being the longer text, is greater than
the start of the candidate (case (a) of the query). -/
theorem touching_candidate_returns_block :
    quickAddedDb.time_blocks.map (fun r => (r.user_id, r.start_time, r.end_time)) =
      [(1, SqlValue.text "2024-01-01T10:00:00.000Z",
           SqlValue.text "2024-01-01T11:00:00.000Z")] ∧
    quickTaskTimes sampleRuntime.tz 1704101400000 1704101400000 (some 10) (some 0) =
      (some 1704103200000, some 1704106800000) ∧
    sampleDate "2024-01-01T11:00" = some 1704106800000 ∧
    dateLt (sampleDate "2024-01-01T11:00") (sampleDate "2024-01-01T12:00") = true ∧
    sqlLt (SqlValue.text "2024-01-01T11:00") (SqlValue.text "2024-01-01T11:00:00.000Z") =
      true ∧
    TimeBlock.findOverlapping sampleNumeric quickAddedDb 1 "2024-01-01T11:00"
      "2024-01-01T12:00" none = quickAddedDb.time_blocks ∧
    quickAddedDb.time_blocks.length = 1 := by
  decide

/-- C12: in a database that satisfies the table constraints, for every owner, candidate and
every `excludeId` that is given, the result of `findOverlapping` holds no row whose id is
`excludeId`, and it is the result of the same call without `excludeId` with the rows of that
id taken out.  (An `excludeId` of 0 is falsy and adds no clause; no row has id 0.) -/
theorem excludeId_removes_that_row (numeric : String → Option ℚ)
    (db : Db) (userId : Nat) (s e : String) (k : Nat)
    (hwf : db.WF) :
    (∀ r ∈ TimeBlock.findOverlapping numeric db userId s e (some k), r.id ≠ k) ∧
    TimeBlock.findOverlapping numeric db userId s e (some k) =
      (TimeBlock.findOverlapping numeric db userId s e none).filter (fun r => decide (r.id ≠ k)) :=
          by
  have hpos : ∀ r ∈ db.time_blocks, r.id ≠ 0 := fun r hr => by
    have := (hwf.2 r hr).1
    omega
  constructor
  · intro r hr
    rw [mem_findOverlapping] at hr
    by_cases hk : k = 0
    · rw [hk]
      exact hpos r hr.1
    · exact hr.2.2.2 k rfl hk
  · unfold TimeBlock.findOverlapping
    rw [List.filter_filter]
    apply List.filter_congr
    intro r hr
    by_cases hk : k = 0
    · simp [hk, hpos r hr]
    · simp [hk, Bool.and_comm]

/-- Witness for C12: in the sample database the candidate 10:30 to 11:30 of user 1 overlaps
block 1, and excluding id 1 leaves nothing. -/
theorem excludeId_removes_that_row_witness :
    sampleDb.WF ∧
    TimeBlock.findOverlapping sampleNumeric sampleDb 1 "2024-01-01T10:30" "2024-01-01T11:30" none
      = [sampleRow] ∧
    TimeBlock.findOverlapping sampleNumeric sampleDb 1 "2024-01-01T10:30" "2024-01-01T11:30" (some
        1) =
      (TimeBlock.findOverlapping sampleNumeric sampleDb 1 "2024-01-01T10:30" "2024-01-01T11:30"
          none).filter
        (fun r => decide (r.id ≠ 1)) :=
  ⟨by unfold Db.WF; decide, by decide,
   (excludeId_removes_that_row sampleNumeric sampleDb 1 "2024-01-01T10:30" "2024-01-01T11:30" 1
      (by unfold Db.WF; decide)).2⟩

/-- Counterexample to C13 as stated: user 1 owns the sample block of one hour (10:00 to
11:00) and the block with the time texts "tomorrow" and "later" that the create handler
accepted.  `COUNT(*)` is 2, but `SUM` and `AVG` skip the row whose duration is `NULL`: the
total and the average are both 134217729 / 2 ^ 27 = 1.0000000074505806, the REAL value of
`(julianday(end_time) - julianday(start_time)) * 24` on the sample block.  The average is not
the total divided by the count, which is 0.5000000037252903, and the hours of the block of one
hour are not the number 1.  This is so under either way of accumulating the sum. -/
theorem unreadable_block_skews_average :
    (∃ r ∈ undatedDb.time_blocks, r.user_id = 1) ∧
    TimeBlock.getStats sampleJulianday sumPlain undatedDb 1 =
      { total_blocks := 2, total_hours := some { mant := 134217729, exp := -27 },
        avg_duration := some { mant := 134217729, exp := -27 } } ∧
    TimeBlock.getStats sampleJulianday sumKahan undatedDb 1 =
      { total_blocks := 2, total_hours := some { mant := 134217729, exp := -27 },
        avg_duration := some { mant := 134217729, exp := -27 } } ∧
    Real64.divNat { mant := 134217729, exp := -27 } 2 = { mant := 134217729, exp := -28 } ∧
    ({ mant := 134217729, exp := -27 } : Real64) ≠ { mant := 134217729, exp := -28 } ∧
    ({ mant := 134217729, exp := -27 } : Real64) ≠ Real64.ofNat 1 := by
  decide

/-- C13, as amended: for an owner with at least one stored row, `total_blocks` is the number
of stored rows of the owner (rows of other owners are not counted) and is positive.  The
readable rows of the owner are those whose `start_time` and `end_time` `julianday` can read;
`total_hours` is the REAL sum over the readable rows of
`(julianday(end_time) - julianday(start_time)) * 24`, and `avg_duration` is that sum divided by
the number of readable rows; both are absent when the owner has no readable row.  When every
row of the owner is readable, the readable rows are all rows of the owner, so that
`avg_duration` is `total_hours` divided by `total_blocks`. -/
theorem stats_over_readable_blocks (julianday : SqlValue → Option Real64)
    (sumReal : List Real64 → Real64) (db : Db) (userId : Nat)
    (hne : ∃ r ∈ db.time_blocks, r.user_id = userId) :
    (TimeBlock.getStats julianday sumReal db userId).total_blocks =
      (db.time_blocks.filter (fun r => decide (r.user_id = userId))).length ∧
    0 < (TimeBlock.getStats julianday sumReal db userId).total_blocks ∧
    (∀ readable : List Row,
      readable = (db.time_blocks.filter (fun r => decide (r.user_id = userId))).filter
        (fun r => (julianday r.start_time).isSome && (julianday r.end_time).isSome) →
      ∀ hours : List Real64,
      hours = readable.map (fun r =>
        Real64.mul
          (Real64.sub ((julianday r.end_time).getD (Real64.ofNat 0))
            ((julianday r.start_time).getD (Real64.ofNat 0)))
          (Real64.ofNat 24)) →
      (readable = [] →
        (TimeBlock.getStats julianday sumReal db userId).total_hours = none ∧
        (TimeBlock.getStats julianday sumReal db userId).avg_duration = none) ∧
      (readable ≠ [] →
        (TimeBlock.getStats julianday sumReal db userId).total_hours = some (sumReal hours) ∧
        (TimeBlock.getStats julianday sumReal db userId).avg_duration =
          some (Real64.divNat (sumReal hours) readable.length)) ∧
      ((∀ r ∈ db.time_blocks, r.user_id = userId →
          (julianday r.start_time).isSome = true ∧ (julianday r.end_time).isSome = true) →
        readable = db.time_blocks.filter (fun r => decide (r.user_id = userId)) ∧
        (TimeBlock.getStats julianday sumReal db userId).total_hours = some (sumReal hours) ∧
        (TimeBlock.getStats julianday sumReal db userId).avg_duration =
          some (Real64.divNat (sumReal hours)
            (TimeBlock.getStats julianday sumReal db userId).total_blocks))) := by
  obtain ⟨r0, hr0, hu0⟩ := hne
  have hmem0 : r0 ∈ db.time_blocks.filter (fun r => decide (r.user_id = userId)) :=
    List.mem_filter.2 ⟨hr0, by simpa using hu0⟩
  have hpos : 0 < (db.time_blocks.filter (fun r => decide (r.user_id = userId))).length :=
    List.length_pos_of_mem hmem0
  refine ⟨rfl, hpos, ?_⟩
  intro readable hreadable hours hhours
  have hvals : (db.time_blocks.filter (fun r => decide (r.user_id = userId))).filterMap
      (TimeBlock.durationHours julianday) = hours := by
    rw [hhours, hreadable]
    exact durationHours_filterMap julianday _
  have hlen : hours.length = readable.length := by rw [hhours, List.length_map]
  have hsome : readable ≠ [] →
      (TimeBlock.getStats julianday sumReal db userId).total_hours = some (sumReal hours) ∧
      (TimeBlock.getStats julianday sumReal db userId).avg_duration =
        some (Real64.divNat (sumReal hours) readable.length) := by
    intro hreadne
    have hne2 : hours ≠ [] := fun hc => hreadne (by
      rw [hhours, List.map_eq_nil_iff] at hc
      exact hc)
    have hemp : hours.isEmpty = false := by
      rw [List.isEmpty_eq_false]
      exact hne2
    unfold TimeBlock.getStats
    simp only [hvals, hemp, hlen]
    exact ⟨rfl, rfl⟩
  refine ⟨?_, hsome, ?_⟩
  · intro hnil
    have hh : hours = [] := by rw [hhours, hnil, List.map_nil]
    unfold TimeBlock.getStats
    simp only [hvals, hh]
    exact ⟨rfl, rfl⟩
  · intro hall
    have hfull : readable = db.time_blocks.filter (fun r => decide (r.user_id = userId)) := by
      rw [hreadable, List.filter_eq_self]
      intro r hr
      obtain ⟨hmem, hu⟩ := List.mem_filter.1 hr
      obtain ⟨h1, h2⟩ := hall r hmem (by simpa using hu)
      simp [h1, h2]
    have hreadne : readable ≠ [] := by
      rw [hfull]
      exact List.ne_nil_of_length_pos hpos
    obtain ⟨ht, ha⟩ := hsome hreadne
    refine ⟨hfull, ht, ?_⟩
    rw [ha, hfull]
    rfl

/-- Witness for C13: the blocks 09:00 to 10:00, 10:00 to 12:00 and 09:00 to 12:00 of user 1
(one, two and three hours), next to a block of user 2, give count 3, total 6 and average 2
under either way of accumulating the sum; every one of these rows is readable. -/
theorem stats_over_readable_blocks_witness :
    (∃ r ∈ statsDb.time_blocks, r.user_id = 1) ∧
    0 < (TimeBlock.getStats sampleJulianday sumPlain statsDb 1).total_blocks ∧
    TimeBlock.getStats sampleJulianday sumPlain statsDb 1 =
      { total_blocks := 3, total_hours := some (Real64.ofNat 6),
        avg_duration := some (Real64.ofNat 2) } ∧
    TimeBlock.getStats sampleJulianday sumKahan statsDb 1 =
      { total_blocks := 3, total_hours := some (Real64.ofNat 6),
        avg_duration := some (Real64.ofNat 2) } :=
  ⟨by decide, (stats_over_readable_blocks sampleJulianday sumPlain statsDb 1 (by decide)).2.1,
   by decide, by decide⟩

/-- C14: for every owner with no stored row, `getStats` returns `total_blocks = 0` with
`total_hours` and `avg_duration` both absent; no division takes place. -/
theorem stats_of_no_blocks (julianday : SqlValue → Option Real64)
    (sumReal : List Real64 → Real64) (db : Db) (userId : Nat)
    (hnone : ∀ r ∈ db.time_blocks, r.user_id ≠ userId) :
    TimeBlock.getStats julianday sumReal db userId =
      { total_blocks := 0, total_hours := none, avg_duration := none } := by
  have hrows : db.time_blocks.filter (fun r => decide (r.user_id = userId)) = [] := by
    rw [List.filter_eq_nil_iff]
    intro r hr
    simpa using hnone r hr
  simp [TimeBlock.getStats, hrows]

/-- Witness for C14: user 3 owns nothing in the database of the aggregation example. -/
theorem stats_of_no_blocks_witness :
    (∀ r ∈ statsDb.time_blocks, r.user_id ≠ 3) ∧
    TimeBlock.getStats sampleJulianday sumPlain statsDb 3 =
      { total_blocks := 0, total_hours := none, avg_duration := none } :=
  ⟨by decide, stats_of_no_blocks sampleJulianday sumPlain statsDb 3 (by decide)⟩

/-! ## Facts about accepted edits -/

theorem edit_accepted (numeric : String → Option ℚ)
    (newDate : String → Option Int) (now : String) (db : Db)
    (userId id : Nat) (body : TimeBlockForm) (r : Row)
    (hf : TimeBlock.findById db id = some r) (ho : r.user_id = userId)
    (ht : body.title ≠ "") (hs : body.start_time ≠ "") (he : body.end_time ≠ "")
    (h : dateLe (newDate body.end_time) (newDate body.start_time) = false) :
    postTimeblocksEdit numeric newDate now db userId id body =
      ((TimeBlock.update numeric db now id body.title (orNull body.description)
          body.start_time body.end_time).1,
       Response.success "Time block updated successfully!" Redirect.dashboard) := by
  unfold postTimeblocksEdit
  simp only [hf]
  rw [if_neg (by simp [ho]), if_neg (by simp [falsy, ht, hs, he]), if_neg (by simp [h])]

theorem edit_success_inv (numeric : String → Option ℚ)
    (newDate : String → Option Int) (now : String) (db : Db)
    (userId id : Nat) (body : TimeBlockForm)
    (hok : (postTimeblocksEdit numeric newDate now db userId id body).2.success_msg ≠ none) :
    ∃ r, TimeBlock.findById db id = some r ∧ r.user_id = userId ∧
      postTimeblocksEdit numeric newDate now db userId id body =
        ((TimeBlock.update numeric db now id body.title (orNull body.description)
            body.start_time body.end_time).1,
         Response.success "Time block updated successfully!" Redirect.dashboard) := by
  unfold postTimeblocksEdit at hok ⊢
  cases hf : TimeBlock.findById db id with
  | none => simp [hf, Response.error] at hok
  | some r =>
    simp only [hf] at hok ⊢
    by_cases h1 : r.user_id ≠ userId
    · simp [h1, Response.error] at hok
    · rw [if_neg h1] at hok ⊢
      by_cases h2 : (falsy body.title || falsy body.start_time || falsy body.end_time) = true
      · simp [h2, Response.error] at hok
      · rw [if_neg h2] at hok ⊢
        by_cases h3 : dateLe (newDate body.end_time) (newDate body.start_time) = true
        · simp [h3, Response.error] at hok
        · rw [if_neg h3]
          exact ⟨r, rfl, not_not.1 h1, rfl⟩

theorem findById_update (numeric : String → Option ℚ) (db : Db) (now : String) (id : Nat)
    (title : String) (description : Option String) (startTime endTime : String) (j : Nat) :
    TimeBlock.findById
        (TimeBlock.update numeric db now id title description startTime endTime).1 j =
      (TimeBlock.findById db j).map (fun r =>
        if r.id = id then
          { r with title := title, description := description,
                   start_time := affinity numeric startTime,
                   end_time := affinity numeric endTime, updated_at := now }
        else r) := by
  have hkeep : ((fun r : Row => decide (r.id = j)) ∘ fun r : Row =>
      if r.id = id then
        { r with title := title, description := description,
                 start_time := affinity numeric startTime,
                 end_time := affinity numeric endTime, updated_at := now }
      else r) = fun r : Row => decide (r.id = j) := by
    funext r
    by_cases h : r.id = id <;> simp [h]
  unfold TimeBlock.findById TimeBlock.update
  simp only []
  rw [List.find?_map, hkeep]

/-! ## Claims on titles, updates and the owner's list -/

/-- Counterexample to C18 as stated: a title of 201 characters with the interval 11:00 to
12:00.  The create handler accepts it and stores a row with that title; the edit handler,
called by the owner of block 1, accepts it and writes that title into block 1. -/
theorem long_title_is_accepted :
    longTitle.length = 201 ∧
    (postTimeblocksCreate sampleNumeric sampleDate sampleNow sampleDb 1 longTitleForm).2 =
      Response.success "Time block created successfully!" Redirect.dashboard ∧
    (TimeBlock.findById (postTimeblocksCreate sampleNumeric sampleDate sampleNow sampleDb 1
        longTitleForm).1
      2).map Row.title = some longTitle ∧
    (postTimeblocksEdit sampleNumeric sampleDate sampleNow sampleDb 1 1 longTitleForm).2 =
      Response.success "Time block updated successfully!" Redirect.dashboard ∧
    (TimeBlock.findById (postTimeblocksEdit sampleNumeric sampleDate sampleNow sampleDb 1 1
        longTitleForm).1
      1).map Row.title = some longTitle :=
  ⟨rfl, rfl, rfl, rfl, rfl⟩

/-- C18, as amended: for every request whose title is empty, create and update by the owner
fail with the missing-field error and return the database unchanged.  The length of a title
is not checked: for every non-empty title, however long, with filled-in times that do not
fail the interval comparison, create stores a row with that title and update by the owner
writes that title into the row. -/
theorem title_validation_is_presence_only (numeric : String → Option ℚ)
    (newDate : String → Option Int) (now : String)
    (db : Db) (userId id : Nat) (body : TimeBlockForm) (r : Row)
    (hf : TimeBlock.findById db id = some r) (ho : r.user_id = userId) :
    (body.title = "" →
      postTimeblocksCreate numeric newDate now db userId body =
        (db, Response.error msgRequired Redirect.timeblocksCreate) ∧
      postTimeblocksEdit numeric newDate now db userId id body =
        (db, Response.error msgRequired (Redirect.timeblocksEdit id))) ∧
    (body.title ≠ "" → body.start_time ≠ "" → body.end_time ≠ "" →
      dateLe (newDate body.end_time) (newDate body.start_time) = false →
      (postTimeblocksCreate numeric newDate now db userId body).2 =
        Response.success "Time block created successfully!" Redirect.dashboard ∧
      (∃ x ∈ (postTimeblocksCreate numeric newDate now db userId body).1.time_blocks,
        x.id = db.seq + 1 ∧ x.title = body.title) ∧
      (postTimeblocksEdit numeric newDate now db userId id body).2 =
        Response.success "Time block updated successfully!" Redirect.dashboard ∧
      (TimeBlock.findById (postTimeblocksEdit numeric newDate now db userId id body).1 id).map
          Row.title
        = some body.title) := by
  constructor
  · intro ht
    exact ⟨create_missing_field numeric newDate now db userId body (Or.inl ht),
      edit_missing_field numeric newDate now db userId id body r hf ho (Or.inl ht)⟩
  · intro ht hs he hd
    rw [create_accepted numeric newDate now db userId body ht hs he hd,
      edit_accepted numeric newDate now db userId id body r hf ho ht hs he hd]
    refine ⟨rfl, ⟨Row.mk (db.seq + 1) userId body.title (orNull body.description)
      (affinity numeric body.start_time) (affinity numeric body.end_time) now now, ?_, rfl,
      rfl⟩, rfl, ?_⟩
    · simp [TimeBlock.create]
    · rw [findById_update, hf]
      simp [(findById_some hf).2]

/-- Witness for C18: in the sample database user 1 sends the untitled form and the form with
the title of 201 characters, each to create and to the edit of block 1. -/
theorem title_validation_is_presence_only_witness :
    TimeBlock.findById sampleDb 1 = some sampleRow ∧ sampleRow.user_id = 1 ∧
    postTimeblocksCreate sampleNumeric sampleDate sampleNow sampleDb 1 untitledInvertedForm =
      (sampleDb, Response.error msgRequired Redirect.timeblocksCreate) ∧
    postTimeblocksEdit sampleNumeric sampleDate sampleNow sampleDb 1 1 untitledInvertedForm =
      (sampleDb, Response.error msgRequired (Redirect.timeblocksEdit 1)) ∧
    (postTimeblocksCreate sampleNumeric sampleDate sampleNow sampleDb 1 longTitleForm).2 =
      Response.success "Time block created successfully!" Redirect.dashboard :=
  ⟨by decide, by decide,
   ((title_validation_is_presence_only sampleNumeric sampleDate sampleNow sampleDb 1 1
       untitledInvertedForm
      sampleRow (by decide) (by decide)).1 (by decide)).1,
   ((title_validation_is_presence_only sampleNumeric sampleDate sampleNow sampleDb 1 1
       untitledInvertedForm
      sampleRow (by decide) (by decide)).1 (by decide)).2,
   ((title_validation_is_presence_only sampleNumeric sampleDate sampleNow sampleDb 1 1 longTitleForm
      sampleRow (by decide) (by decide)).2 (by decide) (by decide) (by decide) rfl).1⟩

/-- C19, as amended: for every update request that succeeds, the addressed row exists and
belongs to the caller, and afterwards that row has the supplied title, the supplied
description (no description when the field was empty), in `start_time` and in `end_time` the
supplied text when SQLite does not read it as a numeric literal and the number it denotes when
SQLite does, and the current timestamp as `updated_at`, while its `id`, `user_id` and
`created_at` are what they were; every other id looks up the same row as before, and the
table holds the same ids in the same order. -/
theorem successful_update_frame (numeric : String → Option ℚ)
    (newDate : String → Option Int) (now : String) (db : Db) (userId id : Nat)
    (body : TimeBlockForm)
    (hok : (postTimeblocksEdit numeric newDate now db userId id body).2.success_msg ≠ none) :
    ∃ r0 r1, TimeBlock.findById db id = some r0 ∧ r0.user_id = userId ∧
      TimeBlock.findById (postTimeblocksEdit numeric newDate now db userId id body).1 id =
        some r1 ∧
      r1.title = body.title ∧
      (body.description = "" → r1.description = none) ∧
      (body.description ≠ "" → r1.description = some body.description) ∧
      (numeric body.start_time = none → r1.start_time = SqlValue.text body.start_time) ∧
      (∀ q, numeric body.start_time = some q → r1.start_time = SqlValue.num q) ∧
      (numeric body.end_time = none → r1.end_time = SqlValue.text body.end_time) ∧
      (∀ q, numeric body.end_time = some q → r1.end_time = SqlValue.num q) ∧
      r1.updated_at = now ∧
      r1.id = r0.id ∧ r1.user_id = r0.user_id ∧ r1.created_at = r0.created_at ∧
      (∀ j, j ≠ id →
        TimeBlock.findById (postTimeblocksEdit numeric newDate now db userId id body).1 j =
          TimeBlock.findById db j) ∧
      (postTimeblocksEdit numeric newDate now db userId id body).1.time_blocks.map Row.id =
        db.time_blocks.map Row.id ∧
      (postTimeblocksEdit numeric newDate now db userId id body).1.seq = db.seq := by
  obtain ⟨r0, hf, ho, heq⟩ := edit_success_inv numeric newDate now db userId id body hok
  rw [heq]
  refine ⟨r0, { id := r0.id, user_id := r0.user_id, title := body.title,
                description := orNull body.description,
                start_time := affinity numeric body.start_time,
                end_time := affinity numeric body.end_time,
                created_at := r0.created_at, updated_at := now },
    hf, ho, ?_, rfl, ?_, ?_, fun hn => affinity_of_none hn, fun q hq => affinity_of_some hq,
    fun hn => affinity_of_none hn, fun q hq => affinity_of_some hq, rfl, rfl, rfl, rfl,
    ?_, ?_, rfl⟩
  · rw [findById_update, hf]
    simp [(findById_some hf).2]
  · intro hd
    simp [orNull, hd]
  · intro hd
    simp [orNull, hd]
  · intro j hj
    rw [findById_update]
    cases hfj : TimeBlock.findById db j with
    | none => rfl
    | some x =>
      have hx : x.id ≠ id := by
        rw [(findById_some hfj).2]
        exact hj
      simp [hx]
  · exact map_id_update db.time_blocks now id _ _ _ _

/-- Witness for C19: user 1 edits block 1 of the sample database with the valid form; the
request succeeds, and the row keeps id 1, user 1 and its creation time and carries the title,
the description and the two texts of the form. -/
theorem successful_update_frame_witness :
    (postTimeblocksEdit sampleNumeric sampleDate sampleNow sampleDb 1 1 validForm).2.success_msg
      ≠ none ∧
    TimeBlock.findById
        (postTimeblocksEdit sampleNumeric sampleDate sampleNow sampleDb 1 1 validForm).1 1 =
      some { id := 1, user_id := 1, title := "Review",
             description := some "quarterly numbers",
             start_time := SqlValue.text "2024-01-01T11:00",
             end_time := SqlValue.text "2024-01-01T12:00",
             created_at := "2024-01-01 08:00:00", updated_at := sampleNow } ∧
    (postTimeblocksEdit sampleNumeric sampleDate sampleNow sampleDb 1 1 validForm).1.seq =
      sampleDb.seq := by
  obtain ⟨r0, r1, -, -, -, -, -, -, -, -, -, -, -, -, -, -, -, -, hseq⟩ :=
    successful_update_frame sampleNumeric sampleDate sampleNow sampleDb 1 1 validForm
      (by decide)
  exact ⟨by decide, by decide, hseq⟩

/-- Counterexample to C19 as stated: user 1 edits block 1 of the sample database with the
form from "2024" to "2025", two texts that denote dates with the start before the end.  The
update succeeds, and afterwards the row carries the numbers 2024 and 2025 in `start_time` and
`end_time`, which are not the texts that were supplied. -/
theorem numeric_texts_are_not_kept_by_update :
    (postTimeblocksEdit sampleNumeric sampleDate sampleNow sampleDb 1 1 yearForm).2 =
      Response.success "Time block updated successfully!" Redirect.dashboard ∧
    (TimeBlock.findById
        (postTimeblocksEdit sampleNumeric sampleDate sampleNow sampleDb 1 1 yearForm).1 1).map
      (fun r => (r.start_time, r.end_time)) = some (SqlValue.num 2024, SqlValue.num 2025) ∧
    SqlValue.num 2024 ≠ SqlValue.text yearForm.start_time ∧
    SqlValue.num 2025 ≠ SqlValue.text yearForm.end_time := by
  refine ⟨by decide, ?_, by simp, by simp⟩
  rfl

/-- What `findByUserId` returns, in the order of the store: the rows of the owner, each row
at or after every row that follows it in SQLite's order of the stored `start_time` values. -/
theorem findByUserId_in_store_order (db : Db) (userId : Nat) :
    (TimeBlock.findByUserId db userId).Pairwise
      (fun a b => sqlLe b.start_time a.start_time = true) ∧
    (TimeBlock.findByUserId db userId).Chain'
      (fun a b => sqlLe b.start_time a.start_time = true) ∧
    (∀ r, r ∈ TimeBlock.findByUserId db userId ↔ r ∈ db.time_blocks ∧ r.user_id = userId) := by
  haveI : IsTotal Row (fun a b => sqlLe b.start_time a.start_time = true) :=
    ⟨fun a b => by simp only [sqlLe_iff]; exact le_total _ _⟩
  haveI : IsTrans Row (fun a b => sqlLe b.start_time a.start_time = true) :=
    ⟨fun a b c hab hbc => by
      rw [sqlLe_iff] at hab hbc ⊢
      exact le_trans hbc hab⟩
  have hsorted : (TimeBlock.findByUserId db userId).Pairwise
      (fun a b => sqlLe b.start_time a.start_time = true) :=
    List.sorted_insertionSort _ _
  refine ⟨hsorted, hsorted.chain', ?_⟩
  intro r
  simp [TimeBlock.findByUserId, List.mem_insertionSort, List.mem_filter]

/-- C20, the code at the failing input: a process in New York, where local time is UTC-5 in
January.  User 1 submits the create form for 11:00 to 12:00 of 2024-01-01; the block "Review"
is stored with the start text "2024-01-01T11:00", which is the instant 16:00 UTC.  At 09:30
local time user 1 quick-adds the task "Call" for 10:00; it is stored with the start text
"2024-01-01T15:00:00.000Z", the instant 15:00 UTC.  `findByUserId` lists "Call" first and
"Review" second, although "Call" starts one hour before "Review": the order is that of the
stored texts, which differ at the hour digits "15" and "11". -/
theorem owner_list_is_not_most_recent_first :
    (TimeBlock.findByUserId newYorkDb 1).map (fun r => (r.title, r.start_time)) =
      [("Call", SqlValue.text "2024-01-01T15:00:00.000Z"),
       ("Review", SqlValue.text "2024-01-01T11:00")] ∧
    quickTaskTimes newYorkSpring2024 1704119400000 1704119400000 (some 10) (some 0) =
      (some 1704121200000, some 1704124800000) ∧
    sampleDateNewYork "2024-01-01T11:00" = some 1704124800000 ∧
    LocalTime newYorkSpring2024 1704124800000 = 1704106800000 ∧
    dateLt (some 1704121200000) (sampleDateNewYork "2024-01-01T11:00") = true := by
  decide

/-! ## Facts about `Date` arithmetic -/

theorem TimeClip_of_range {t : Int} (h1 : -8640000000000000 ≤ t) (h2 : t ≤ 8640000000000000) :
    TimeClip t = some t := by
  simp [TimeClip, h1, h2]

theorem TimeClip_eq_some {t s : Int} (h : TimeClip t = some s) : s = t := by
  unfold TimeClip at h
  split at h
  · exact (Option.some.inj h).symm
  · cases h

theorem MakeDate_next_day (t : Int) : MakeDate (Day t + 1) (TimeWithinDay t) = t + msPerDay := by
  unfold MakeDate Day TimeWithinDay msPerDay
  omega

theorem MakeDate_time_fields (t : Int) :
    MakeDate (Day t) (MakeTime (HourFromTime t) (MinFromTime t) (SecFromTime t) (msFromTime t))
      = t := by
  unfold MakeDate Day MakeTime HourFromTime MinFromTime SecFromTime msFromTime msPerDay msPerHour
    msPerMinute msPerSecond
  omega

theorem MakeDate_next_hour (t : Int) :
    MakeDate (Day t)
      (MakeTime (HourFromTime t + 1) (MinFromTime t) (SecFromTime t) (msFromTime t))
      = t + msPerHour := by
  have h := MakeDate_time_fields t
  unfold MakeDate MakeTime at h ⊢
  unfold msPerHour at h ⊢
  linarith

theorem fixed_regular (offset : Int) (h1 : -msPerDay ≤ offset) (h2 : offset ≤ msPerDay) :
    (TimeZone.fixed offset).Regular := by
  refine ⟨fun _ => ⟨h1, h2⟩, fun _ => ⟨h1, h2⟩, fun x => ?_, fun x n h => ?_⟩
  · simp [LocalTime, UTC, TimeZone.fixed]
  · simp only [LocalTime, UTC, TimeZone.fixed, Day, msPerDay] at h ⊢
    omega

theorem newYorkFall2024_regular : newYorkFall2024.Regular := by
  refine ⟨fun t => ?_, fun t => ?_, fun x => ?_, fun x n h => ?_⟩
  · simp only [newYorkFall2024, msPerDay]
    split <;> omega
  · simp only [newYorkFall2024, msPerDay]
    split <;> omega
  · simp only [LocalTime, UTC, newYorkFall2024]
    split <;> split <;> omega
  · simp only [LocalTime, UTC, newYorkFall2024, Day, msPerDay] at h ⊢
    split at h <;> split <;> omega

/-! ## Facts about the quick-task times -/

theorem quickTaskTimes_start (tz : TimeZone) (today now h m : Int)
    (h1 : -8640000000000000 ≤
      UTC tz (MakeDate (Day (LocalTime tz today)) (MakeTime h m 0 0)))
    (h2 : UTC tz (MakeDate (Day (LocalTime tz today)) (MakeTime h m 0 0)) ≤
      8640000000000000) :
    (quickTaskTimes tz today now (some h) (some m)).1 =
      if UTC tz (MakeDate (Day (LocalTime tz today)) (MakeTime h m 0 0)) < now then
        TimeClip (UTC tz
          (LocalTime tz (UTC tz (MakeDate (Day (LocalTime tz today)) (MakeTime h m 0 0)))
            + msPerDay))
      else some (UTC tz (MakeDate (Day (LocalTime tz today)) (MakeTime h m 0 0))) := by
  unfold quickTaskTimes
  simp only [JsDate.setHours, TimeClip_of_range h1 h2]
  by_cases hlt : UTC tz (MakeDate (Day (LocalTime tz today)) (MakeTime h m 0 0)) < now
  · simp [dateLt, hlt, JsDate.setDateToNext, MakeDate_next_day]
  · simp [dateLt, hlt]

theorem quickTaskTimes_fixed (offset today now h m : Int)
    (h1 : -8640000000000000 ≤ today - 2 * msPerDay + MakeTime h m 0 0)
    (h2 : today + 2 * msPerDay + msPerHour + MakeTime h m 0 0 ≤ 8640000000000000) :
    ∃ s, quickTaskTimes (TimeZone.fixed offset) today now (some h) (some m) =
      (some s, some (s + msPerHour)) := by
  have hd : Day (today + offset) * msPerDay ≤ today + offset ∧
      today + offset < Day (today + offset) * msPerDay + msPerDay := by
    unfold Day msPerDay
    omega
  have hstart : TimeClip (MakeDate (Day (today + offset)) (MakeTime h m 0 0) - offset) =
      some (MakeDate (Day (today + offset)) (MakeTime h m 0 0) - offset) := by
    apply TimeClip_of_range <;>
      (unfold MakeDate; unfold msPerDay msPerHour at *; omega)
  have hend : TimeClip (MakeDate (Day (today + offset)) (MakeTime h m 0 0) - offset
      + msPerHour) =
      some (MakeDate (Day (today + offset)) (MakeTime h m 0 0) - offset + msPerHour) := by
    apply TimeClip_of_range <;>
      (unfold MakeDate; unfold msPerDay msPerHour at *; omega)
  have hstart' : TimeClip (MakeDate (Day (today + offset)) (MakeTime h m 0 0) - offset
      + msPerDay) =
      some (MakeDate (Day (today + offset)) (MakeTime h m 0 0) - offset + msPerDay) := by
    apply TimeClip_of_range <;>
      (unfold MakeDate; unfold msPerDay msPerHour at *; omega)
  have hend' : TimeClip (MakeDate (Day (today + offset)) (MakeTime h m 0 0) - offset
      + msPerDay + msPerHour) =
      some (MakeDate (Day (today + offset)) (MakeTime h m 0 0) - offset + msPerDay
        + msPerHour) := by
    apply TimeClip_of_range <;>
      (unfold MakeDate; unfold msPerDay msPerHour at *; omega)
  unfold quickTaskTimes
  simp only [JsDate.setHours, JsDate.getHours, JsDate.setHour, LocalTime, UTC, TimeZone.fixed,
    hstart, Option.map_some', sub_add_cancel, MakeDate_next_hour]
  have e1 : MakeDate (Day (today + offset)) (MakeTime h m 0 0) + msPerHour - offset =
      MakeDate (Day (today + offset)) (MakeTime h m 0 0) - offset + msPerHour := by ring
  rw [e1, hend]
  by_cases hlt : MakeDate (Day (today + offset)) (MakeTime h m 0 0) - offset < now
  · refine ⟨MakeDate (Day (today + offset)) (MakeTime h m 0 0) - offset + msPerDay, ?_⟩
    simp only [dateLt, hlt, decide_True, if_true, JsDate.setDateToNext, LocalTime, UTC,
      TimeZone.fixed, MakeDate_next_day, sub_add_cancel]
    have e2 : MakeDate (Day (today + offset)) (MakeTime h m 0 0) + msPerDay - offset =
        MakeDate (Day (today + offset)) (MakeTime h m 0 0) - offset + msPerDay := by ring
    have e3 : MakeDate (Day (today + offset)) (MakeTime h m 0 0) - offset + msPerHour + offset
        + msPerDay - offset =
        MakeDate (Day (today + offset)) (MakeTime h m 0 0) - offset + msPerDay + msPerHour := by
      ring
    rw [e2, e3, hstart', hend']
  · exact ⟨MakeDate (Day (today + offset)) (MakeTime h m 0 0) - offset, by simp [dateLt, hlt]⟩

theorem postApiQuickTask_resolved (numeric : String → Option ℚ)
    (rt : JsRuntime) (today now : Int) (sqlNow : String)
    (db : Db) (userId : Nat) (taskName taskTime : String) (s e : Int)
    (hn : taskName ≠ "") (ht : taskTime ≠ "")
    (hres : quickTaskTimes rt.tz today now
      ((((splitColon taskTime.toList).map String.mk).get? 0).bind rt.parseInt)
      ((((splitColon taskTime.toList).map String.mk).get? 1).bind rt.parseInt)
        = (some s, some e)) :
    (postApiQuickTask numeric rt today now sqlNow db userId taskName taskTime).1 =
      (TimeBlock.create numeric db sqlNow userId taskName none (rt.toISOString s)
        (rt.toISOString e)).1 := by
  unfold postApiQuickTask
  rw [if_neg (by simp [falsy, hn, ht])]
  simp only [hres]

/-! ## Claims on quick-add -/

/-- C15: let `t` be the local date of the clock reading `today` combined with the requested
hour and minute, seconds and milliseconds zero.  The start that quick-add resolves is `t`
when `t` is not strictly before `now`, and otherwise the instant with the local reading of
`t` one calendar day later; in a zone with a constant offset that instant is `t` plus 24
hours. -/
theorem quick_add_rollover (tz : TimeZone) (today now h m t : Int)
    (ht : t = UTC tz (MakeDate (Day (LocalTime tz today)) (MakeTime h m 0 0)))
    (h1 : -8640000000000000 ≤ t) (h2 : t ≤ 8640000000000000) :
    (¬ t < now → (quickTaskTimes tz today now (some h) (some m)).1 = some t) ∧
    (t < now → (quickTaskTimes tz today now (some h) (some m)).1 =
      TimeClip (UTC tz (LocalTime tz t + msPerDay))) ∧
    (∀ offset, tz = TimeZone.fixed offset →
      t = Day (today + offset) * msPerDay + h * msPerHour + m * msPerMinute - offset ∧
      UTC tz (LocalTime tz t + msPerDay) = t + msPerDay) := by
  subst ht
  have hstart := quickTaskTimes_start tz today now h m h1 h2
  refine ⟨fun hge => ?_, fun hlt => ?_, fun offset htz => ?_⟩
  · rw [hstart, if_neg hge]
  · rw [hstart, if_pos hlt]
  · subst htz
    simp only [LocalTime, UTC, TimeZone.fixed, MakeDate, MakeTime]
    constructor <;> ring

/-- Witness for C15: in a process on UTC with the clock at 14:00 of 2024-01-01, the request
13:00 resolves to 13:00 of 2024-01-02 and the request 15:00 to 15:00 of 2024-01-01. -/
theorem quick_add_rollover_witness :
    (quickTaskTimes (TimeZone.fixed 0) 1704117600000 1704117600000 (some 13) (some 0)).1 =
      TimeClip (1704114000000 + msPerDay) ∧
    (quickTaskTimes (TimeZone.fixed 0) 1704117600000 1704117600000 (some 15) (some 0)).1 =
      some 1704121200000 :=
  ⟨(quick_add_rollover (TimeZone.fixed 0) 1704117600000 1704117600000 13 0 1704114000000
      (by decide) (by decide) (by decide)).2.1 (by decide),
   (quick_add_rollover (TimeZone.fixed 0) 1704117600000 1704117600000 15 0 1704121200000
      (by decide) (by decide) (by decide)).1 (by decide)⟩

/-- When the two clock readings fall on one local day: in a regular time zone, for every
requested hour in 0..23 and minute in 0..59 and for every two clock readings `today` and `now`
on the same local calendar day, the start that quick-add resolves is a valid date and is not
before `now`. -/
theorem quickTaskTimes_not_before_now (tz : TimeZone) (today now h m : Int) (hreg : tz.Regular)
    (hh : 0 ≤ h ∧ h ≤ 23) (hm : 0 ≤ m ∧ m ≤ 59)
    (hday : Day (LocalTime tz now) = Day (LocalTime tz today))
    (ht : -8600000000000000 ≤ today ∧ today ≤ 8600000000000000)
    (hn : -8600000000000000 ≤ now ∧ now ≤ 8600000000000000) :
    ∃ s, (quickTaskTimes tz today now (some h) (some m)).1 = some s ∧ now ≤ s := by
  obtain ⟨hu, hl, hfwd, hlater⟩ := hreg
  have hx : Day (LocalTime tz today) * msPerDay ≤
        MakeDate (Day (LocalTime tz today)) (MakeTime h m 0 0) ∧
      MakeDate (Day (LocalTime tz today)) (MakeTime h m 0 0) <
        Day (LocalTime tz today) * msPerDay + msPerDay := by
    unfold MakeDate MakeTime msPerDay msPerHour msPerMinute msPerSecond
    omega
  have hL : Day (LocalTime tz today) * msPerDay ≤ LocalTime tz today ∧
      LocalTime tz today < Day (LocalTime tz today) * msPerDay + msPerDay := by
    unfold Day msPerDay
    omega
  have hLt := hu today
  have hLx := hl (MakeDate (Day (LocalTime tz today)) (MakeTime h m 0 0))
  have hLdef : LocalTime tz today = today + tz.atUtc today := rfl
  have h1 : -8640000000000000 ≤
      UTC tz (MakeDate (Day (LocalTime tz today)) (MakeTime h m 0 0)) := by
    unfold UTC
    unfold msPerDay at *
    omega
  have h2 : UTC tz (MakeDate (Day (LocalTime tz today)) (MakeTime h m 0 0)) ≤
      8640000000000000 := by
    unfold UTC
    unfold msPerDay at *
    omega
  rw [quickTaskTimes_start tz today now h m h1 h2]
  by_cases hlt : UTC tz (MakeDate (Day (LocalTime tz today)) (MakeTime h m 0 0)) < now
  · rw [if_pos hlt]
    have hback := hfwd (MakeDate (Day (LocalTime tz today)) (MakeTime h m 0 0))
    have hdaylt : Day (LocalTime tz now) <
        Day (LocalTime tz (UTC tz (MakeDate (Day (LocalTime tz today)) (MakeTime h m 0 0)))
          + msPerDay) := by
      rw [hday]
      unfold Day msPerDay at *
      omega
    have hge := hlater _ now hdaylt
    have hup := hu (UTC tz (MakeDate (Day (LocalTime tz today)) (MakeTime h m 0 0)))
    have hlo := hl (LocalTime tz (UTC tz (MakeDate (Day (LocalTime tz today))
      (MakeTime h m 0 0))) + msPerDay)
    have hL0 : LocalTime tz (UTC tz (MakeDate (Day (LocalTime tz today)) (MakeTime h m 0 0)))
        = UTC tz (MakeDate (Day (LocalTime tz today)) (MakeTime h m 0 0)) +
          tz.atUtc (UTC tz (MakeDate (Day (LocalTime tz today)) (MakeTime h m 0 0))) := rfl
    have hU : UTC tz (LocalTime tz (UTC tz (MakeDate (Day (LocalTime tz today))
          (MakeTime h m 0 0))) + msPerDay) =
        LocalTime tz (UTC tz (MakeDate (Day (LocalTime tz today)) (MakeTime h m 0 0)))
          + msPerDay - tz.atLocal (LocalTime tz (UTC tz (MakeDate (Day (LocalTime tz today))
            (MakeTime h m 0 0))) + msPerDay) := rfl
    refine ⟨_, TimeClip_of_range ?_ ?_, hge⟩
    · omega
    · unfold msPerDay at *
      omega
  · rw [if_neg hlt]
    exact ⟨_, rfl, not_lt.1 hlt⟩

/-- C16, the code at the failing input: a process on UTC.  The handler reads the clock at
23:59:59.999 of 2024-01-01 (`today`, line 585) and again at 00:00:00.001 of 2024-01-02 (`now`,
line 595); the request is for 00:00.  The start is built on the day of the first reading,
00:00 of 2024-01-01, which is before `now`; the single shift by a day moves it to
00:00:00.000 of 2024-01-02, which is one millisecond before `now`. -/
theorem quick_add_start_before_now :
    quickTaskTimes (TimeZone.fixed 0) 1704153599999 1704153600001 (some 0) (some 0) =
      (some 1704153600000, some 1704157200000) ∧
    dateLt (quickTaskTimes (TimeZone.fixed 0) 1704153599999 1704153600001 (some 0) (some 0)).1
      (some 1704153600001) = true ∧
    (1704153600001 : Int) - 1704153600000 = 1 := by
  decide

/-- C17, the code at the failing input: a process in New York with the clock at 00:10 local
time of 2024-11-03 (04:10 UTC), the day daylight saving time ends, and the request 01:30.
The start is the first 01:30 of that day (05:30 UTC); `setHours(getHours() + 1)` moves the end
to 02:30 local time, which is 07:30 UTC.  The end is two hours after the start. -/
theorem quick_add_two_hours_at_fall_back :
    quickTaskTimes newYorkFall2024 1730607000000 1730607000000 (some 1) (some 30) =
      (some 1730611800000, some 1730619000000) ∧
    (1730619000000 : Int) - 1730611800000 = 2 * msPerHour := by
  decide

/-! ## Claims on the interval algebra -/

/-- C25: for every row `X` with `start_time < end_time` and every candidate `(s, e)` with
`s < e`, the three-case condition of `findOverlapping` holds exactly when `X.start_time < e`
and `s < X.end_time`, the half-open intersection test; hence for two valid intervals the
condition does not depend on which of them is the stored row and which the candidate.  The
candidate texts are compared as SQLite compares them with the columns, after affinity. -/
theorem overlapCondition_is_half_open_test (numeric : String → Option ℚ) (X : Row)
    (s e : String) (hX : sqlLt X.start_time X.end_time = true)
    (hse : sqlLt (affinity numeric s) (affinity numeric e) = true) :
    (TimeBlock.overlapCondition numeric X s e =
      halfOpenIntersect X.start_time X.end_time (affinity numeric s) (affinity numeric e)) ∧
    (∀ (Y : Row) (xs xe : String),
      Y.start_time = affinity numeric s → Y.end_time = affinity numeric e →
      affinity numeric xs = X.start_time → affinity numeric xe = X.end_time →
      TimeBlock.overlapCondition numeric X s e =
        TimeBlock.overlapCondition numeric Y xs xe) := by
  have key : ∀ (A : Row) (p q : String), A.start_time < A.end_time →
      affinity numeric p < affinity numeric q →
      (TimeBlock.overlapCondition numeric A p q = true ↔
        A.start_time < affinity numeric q ∧ affinity numeric p < A.end_time) := by
    intro A p q hA hpq
    rw [overlapCondition_iff]
    constructor
    · rintro (⟨h1, h2⟩ | ⟨h1, h2⟩ | ⟨h1, h2⟩)
      · exact ⟨lt_of_le_of_lt h1 hpq, h2⟩
      · exact ⟨h1, lt_of_lt_of_le hpq h2⟩
      · exact ⟨lt_of_lt_of_le hA h2, lt_of_le_of_lt h1 hA⟩
    · rintro ⟨h1, h2⟩
      rcases le_or_lt A.start_time (affinity numeric p) with h | h
      · exact Or.inl ⟨h, h2⟩
      · rcases le_or_lt A.end_time (affinity numeric q) with h' | h'
        · exact Or.inr (Or.inr ⟨le_of_lt h, h'⟩)
        · exact Or.inr (Or.inl ⟨h1, le_of_lt h'⟩)
  rw [sqlLt_iff] at hX hse
  have hhalf : ∀ (a b p q : SqlValue),
      (halfOpenIntersect a b p q = true ↔ a < q ∧ p < b) := by
    intro a b p q
    simp [halfOpenIntersect, sqlLt_iff]
  constructor
  · rw [Bool.eq_iff_iff, key X s e hX hse, hhalf]
  · intro Y xs xe hs he hxs hxe
    have hY : Y.start_time < Y.end_time := by rw [hs, he]; exact hse
    have hxx : affinity numeric xs < affinity numeric xe := by rw [hxs, hxe]; exact hX
    rw [Bool.eq_iff_iff, key X s e hX hse, key Y xs xe hY hxx, hs, he, hxs, hxe]
    exact ⟨fun h => ⟨h.2, h.1⟩, fun h => ⟨h.2, h.1⟩⟩

/-- Witness for C25: the sample block 10:00 to 11:00 against the candidate 10:30 to 11:30. -/
theorem overlapCondition_is_half_open_test_witness :
    sqlLt sampleRow.start_time sampleRow.end_time = true ∧
    sqlLt (affinity sampleNumeric "2024-01-01T10:30")
      (affinity sampleNumeric "2024-01-01T11:30") = true ∧
    TimeBlock.overlapCondition sampleNumeric sampleRow "2024-01-01T10:30" "2024-01-01T11:30" =
      halfOpenIntersect sampleRow.start_time sampleRow.end_time
        (SqlValue.text "2024-01-01T10:30") (SqlValue.text "2024-01-01T11:30") :=
  ⟨by decide, by decide,
   (overlapCondition_is_half_open_test sampleNumeric sampleRow "2024-01-01T10:30"
      "2024-01-01T11:30" (by decide) (by decide)).1⟩

/-- C26: for every database, owner and `(s, e)`, every row that
`findByUserIdAndDateRange(owner, s, e)` returns is also returned by
`findOverlapping(owner, s, e)` without `excludeId`; nothing is assumed about `s`, `e` or the
stored intervals. -/
theorem range_result_within_overlap_result (numeric : String → Option ℚ)
    (db : Db) (owner : Nat) (s e : String) :
    ∀ r ∈ TimeBlock.findByUserIdAndDateRange numeric db owner s e,
      r ∈ TimeBlock.findOverlapping numeric db owner s e none := by
  intro r hr
  have hmem : r ∈ db.time_blocks ∧ r.user_id = owner ∧
      sqlLe (affinity numeric s) r.start_time = true ∧
      sqlLe r.end_time (affinity numeric e) = true := by
    simpa [TimeBlock.findByUserIdAndDateRange, List.mem_insertionSort, List.mem_filter,
      and_assoc] using hr
  rw [mem_findOverlapping]
  refine ⟨hmem.1, hmem.2.1, ?_, ?_⟩
  · rw [overlapCondition_iff]
    exact Or.inr (Or.inr ⟨(sqlLe_iff _ _).1 hmem.2.2.1, (sqlLe_iff _ _).1 hmem.2.2.2⟩)
  · intro k hk
    cases hk

/-- Witness for C26: the sample block lies inside the range 09:00 to 12:00 and is returned by
both queries. -/
theorem range_result_within_overlap_result_witness :
    sampleRow ∈ TimeBlock.findByUserIdAndDateRange sampleNumeric sampleDb 1 "2024-01-01T09:00"
      "2024-01-01T12:00" ∧
    sampleRow ∈ TimeBlock.findOverlapping sampleNumeric sampleDb 1 "2024-01-01T09:00"
        "2024-01-01T12:00"
      none :=
  ⟨by decide,
   range_result_within_overlap_result sampleNumeric sampleDb 1 "2024-01-01T09:00" "2024-01-01T12:00"
     sampleRow (by decide)⟩

/-! ## Claims on what the create handler accepts -/

theorem dateLe_false_of_none {a b : Option Int} (h : a = none ∨ b = none) :
    dateLe b a = false := by
  rcases h with rfl | rfl
  · cases b <;> rfl
  · rfl

/-- C23: the handlers do not consult the overlap query.  For every database, owner,
non-empty title and interval with start before end, the create handler succeeds and appends
the row, whatever rows the owner already has; and the edit handler, called by the owner of the
addressed row, succeeds likewise. -/
theorem overlap_is_advisory (numeric : String → Option ℚ) (newDate : String → Option Int)
    (now : String) (db : Db) (userId : Nat) (body : TimeBlockForm)
    (hempty : newDate "" = none) (ht : body.title ≠ "")
    (h : dateLt (newDate body.start_time) (newDate body.end_time) = true) :
    postTimeblocksCreate numeric newDate now db userId body =
      ({ time_blocks := db.time_blocks ++
           [{ id := db.seq + 1, user_id := userId, title := body.title,
              description := orNull body.description,
              start_time := affinity numeric body.start_time,
              end_time := affinity numeric body.end_time,
              created_at := now, updated_at := now }],
         seq := db.seq + 1 },
       Response.success "Time block created successfully!" Redirect.dashboard) ∧
    ∀ id r, TimeBlock.findById db id = some r → r.user_id = userId →
      postTimeblocksEdit numeric newDate now db userId id body =
        ((TimeBlock.update numeric db now id body.title (orNull body.description)
            body.start_time body.end_time).1,
         Response.success "Time block updated successfully!" Redirect.dashboard) := by
  obtain ⟨x, y, hx, hy, -⟩ := (dateLt_true_iff _ _).1 h
  have hs : body.start_time ≠ "" := fun hc => by rw [hc, hempty] at hx; cases hx
  have he : body.end_time ≠ "" := fun hc => by rw [hc, hempty] at hy; cases hy
  have hd := dateLe_false_of_dateLt h
  exact ⟨create_accepted numeric newDate now db userId body ht hs he hd,
    fun id r hf ho => edit_accepted numeric newDate now db userId id body r hf ho ht hs he hd⟩

/-- Witness for C23: user 1 owns the block 10:00 to 11:00; the form for 10:00 to 12:00
overlaps it, and the create handler stores it all the same. -/
theorem overlap_is_advisory_witness :
    sampleDate "" = none ∧ overlappingForm.title ≠ "" ∧
    dateLt (sampleDate overlappingForm.start_time) (sampleDate overlappingForm.end_time)
      = true ∧
    TimeBlock.findOverlapping sampleNumeric sampleDb 1 overlappingForm.start_time
        overlappingForm.end_time
      none = [sampleRow] ∧
    (postTimeblocksCreate sampleNumeric sampleDate sampleNow sampleDb 1 overlappingForm).2 =
      Response.success "Time block created successfully!" Redirect.dashboard ∧
    (postTimeblocksCreate sampleNumeric sampleDate sampleNow sampleDb 1
        overlappingForm).1.time_blocks.length
      = 2 := by
  have h := (overlap_is_advisory sampleNumeric sampleDate sampleNow sampleDb 1 overlappingForm
    (by decide) (by decide) (by decide)).1
  refine ⟨by decide, by decide, by decide, by decide, ?_, ?_⟩
  · rw [h]
  · rw [h]
    rfl

/-- C27, as amended: the create handler stores a row exactly when title, `start_time` and
`end_time` are all non-empty and `new Date(end_time) <= new Date(start_time)` is false; in
every other case it returns the database unchanged with an error.  So for every request with
a non-empty title whose `start_time` or `end_time` is a non-empty text that is no valid date,
the request is accepted and a row is appended; the row carries in `start_time` and in
`end_time` the text of the request when SQLite does not read it as a numeric literal, and the
number it denotes when SQLite does. -/
theorem create_persists_exactly_when (numeric : String → Option ℚ)
    (newDate : String → Option Int) (now : String) (db : Db) (userId : Nat)
    (body : TimeBlockForm) :
    (body.title ≠ "" ∧ body.start_time ≠ "" ∧ body.end_time ≠ "" ∧
        dateLe (newDate body.end_time) (newDate body.start_time) = false →
      ∃ r, postTimeblocksCreate numeric newDate now db userId body =
          ({ time_blocks := db.time_blocks ++ [r], seq := db.seq + 1 },
           Response.success "Time block created successfully!" Redirect.dashboard) ∧
        r.id = db.seq + 1 ∧ r.user_id = userId ∧ r.title = body.title ∧
        (body.description = "" → r.description = none) ∧
        (body.description ≠ "" → r.description = some body.description) ∧
        (numeric body.start_time = none → r.start_time = SqlValue.text body.start_time) ∧
        (∀ q, numeric body.start_time = some q → r.start_time = SqlValue.num q) ∧
        (numeric body.end_time = none → r.end_time = SqlValue.text body.end_time) ∧
        (∀ q, numeric body.end_time = some q → r.end_time = SqlValue.num q) ∧
        r.created_at = now ∧ r.updated_at = now) ∧
    (¬ (body.title ≠ "" ∧ body.start_time ≠ "" ∧ body.end_time ≠ "" ∧
        dateLe (newDate body.end_time) (newDate body.start_time) = false) →
      (postTimeblocksCreate numeric newDate now db userId body).1 = db ∧
      (postTimeblocksCreate numeric newDate now db userId body).2.success_msg = none) ∧
    (body.title ≠ "" → body.start_time ≠ "" → body.end_time ≠ "" →
      newDate body.start_time = none ∨ newDate body.end_time = none →
      ∃ r, postTimeblocksCreate numeric newDate now db userId body =
          ({ time_blocks := db.time_blocks ++ [r], seq := db.seq + 1 },
           Response.success "Time block created successfully!" Redirect.dashboard) ∧
        (numeric body.start_time = none → r.start_time = SqlValue.text body.start_time) ∧
        (∀ q, numeric body.start_time = some q → r.start_time = SqlValue.num q) ∧
        (numeric body.end_time = none → r.end_time = SqlValue.text body.end_time) ∧
        (∀ q, numeric body.end_time = some q → r.end_time = SqlValue.num q)) := by
  have hdesc1 : body.description = "" → orNull body.description = none := by
    intro hd
    simp [orNull, hd]
  have hdesc2 : body.description ≠ "" → orNull body.description = some body.description := by
    intro hd
    simp [orNull, hd]
  refine ⟨fun h => ⟨_, create_accepted numeric newDate now db userId body h.1 h.2.1 h.2.2.1
      h.2.2.2, rfl, rfl, rfl, hdesc1, hdesc2, fun hn => affinity_of_none hn,
      fun q hq => affinity_of_some hq, fun hn => affinity_of_none hn,
      fun q hq => affinity_of_some hq, rfl, rfl⟩,
    fun h => ?_,
    fun ht hs he hn => ⟨_, create_accepted numeric newDate now db userId body ht hs he
      (dateLe_false_of_none hn), fun hn => affinity_of_none hn,
      fun q hq => affinity_of_some hq, fun hn => affinity_of_none hn,
      fun q hq => affinity_of_some hq⟩⟩
  by_cases hmiss : body.title = "" ∨ body.start_time = "" ∨ body.end_time = ""
  · rw [create_missing_field numeric newDate now db userId body hmiss]
    exact ⟨rfl, rfl⟩
  · have ht : body.title ≠ "" := fun hc => hmiss (Or.inl hc)
    have hs : body.start_time ≠ "" := fun hc => hmiss (Or.inr (Or.inl hc))
    have he : body.end_time ≠ "" := fun hc => hmiss (Or.inr (Or.inr hc))
    have hd : dateLe (newDate body.end_time) (newDate body.start_time) = true := by
      cases hb : dateLe (newDate body.end_time) (newDate body.start_time)
      · exact absurd ⟨ht, hs, he, hb⟩ h
      · rfl
    rw [create_bad_interval numeric newDate now db userId body ht hs he hd]
    exact ⟨rfl, rfl⟩

/-- Witness for C27: the form with the time texts "tomorrow" and "later" on the sample
database; both texts are no dates and no numeric literals, and the row is appended with
them. -/
theorem create_persists_exactly_when_witness :
    undatedForm.title ≠ "" ∧ undatedForm.start_time ≠ "" ∧ undatedForm.end_time ≠ "" ∧
    (sampleDate undatedForm.start_time = none ∨ sampleDate undatedForm.end_time = none) ∧
    (∃ r, postTimeblocksCreate sampleNumeric sampleDate sampleNow sampleDb 1 undatedForm =
        ({ time_blocks := sampleDb.time_blocks ++ [r], seq := sampleDb.seq + 1 },
         Response.success "Time block created successfully!" Redirect.dashboard) ∧
      (sampleNumeric undatedForm.start_time = none →
        r.start_time = SqlValue.text undatedForm.start_time) ∧
      (∀ q, sampleNumeric undatedForm.start_time = some q → r.start_time = SqlValue.num q) ∧
      (sampleNumeric undatedForm.end_time = none →
        r.end_time = SqlValue.text undatedForm.end_time) ∧
      (∀ q, sampleNumeric undatedForm.end_time = some q → r.end_time = SqlValue.num q)) ∧
    postTimeblocksCreate sampleNumeric sampleDate sampleNow sampleDb 1 undatedForm =
      ({ time_blocks := sampleDb.time_blocks ++
           [{ id := 2, user_id := 1, title := "Lunch", description := none,
              start_time := SqlValue.text "tomorrow", end_time := SqlValue.text "later",
              created_at := sampleNow, updated_at := sampleNow }],
         seq := 2 },
       Response.success "Time block created successfully!" Redirect.dashboard) :=
  ⟨by decide, by decide, by decide, Or.inl (by decide),
   (create_persists_exactly_when sampleNumeric sampleDate sampleNow sampleDb 1 undatedForm).2.2
     (by decide) (by decide) (by decide) (Or.inl (by decide)),
   by decide⟩

/-- Counterexample to C27 as stated: user 1 submits a create form with the start text "2024"
and the end text "later".  The end is no valid date, so the request is accepted; the appended
row carries the number 2024 in `start_time`, not the text "2024" of the request. -/
theorem numeric_text_is_not_inserted_as_text :
    yearToLaterForm.title ≠ "" ∧ yearToLaterForm.start_time ≠ "" ∧
    yearToLaterForm.end_time ≠ "" ∧ sampleDate yearToLaterForm.end_time = none ∧
    postTimeblocksCreate sampleNumeric sampleDate sampleNow sampleDb 1 yearToLaterForm =
      ({ time_blocks := sampleDb.time_blocks ++
           [{ id := 2, user_id := 1, title := "Plan", description := none,
              start_time := SqlValue.num 2024, end_time := SqlValue.text "later",
              created_at := sampleNow, updated_at := sampleNow }],
         seq := 2 },
       Response.success "Time block created successfully!" Redirect.dashboard) ∧
    SqlValue.num 2024 ≠ SqlValue.text yearToLaterForm.start_time := by
  refine ⟨by decide, by decide, by decide, by decide, ?_, by simp⟩
  rfl

/-! ## Facts about `User.delete` -/

theorem User_delete_without_enforcement (d : Database) (id : Nat) :
    (User.delete false d id).1.store = d.store := by
  simp [User.delete]

theorem User_delete_with_enforcement (d : Database) (id : Nat)
    (hu : ∃ u ∈ d.users, u.id = id) :
    ∀ r ∈ (User.delete true d id).1.store.time_blocks, r.user_id ≠ id := by
  obtain ⟨u, hmem, hid⟩ := hu
  have hne : (d.users.filter (fun u => decide (u.id = id))).isEmpty = false := by
    rw [List.isEmpty_eq_false]
    exact List.ne_nil_of_mem (List.mem_filter.2 ⟨hmem, by simpa using hid⟩)
  intro r hr
  simp only [User.delete, hne, Bool.not_false, Bool.and_self, if_true] at hr
  simpa using (List.mem_filter.1 hr).2

/-! ## Facts about the calendar -/

theorem DayFromYear_estimate_low (d : Int) :
    DayFromYear (1970 + d * 400 / 146097 - 1) ≤ d := by
  unfold DayFromYear
  omega

theorem DayFromYear_estimate_high (d : Int) :
    d < DayFromYear (1970 + d * 400 / 146097 + 1 + 1) := by
  unfold DayFromYear
  omega

theorem DayFromYear_step (y : Int) :
    DayFromYear y + 365 ≤ DayFromYear (y + 1) ∧ DayFromYear (y + 1) ≤ DayFromYear y + 366 := by
  unfold DayFromYear
  omega

theorem YearFromTime_spec (t : Int) :
    DayFromYear (YearFromTime t) ≤ Day t ∧ Day t < DayFromYear (YearFromTime t + 1) := by
  unfold YearFromTime
  split
  · rename_i h1
    exact ⟨h1, DayFromYear_estimate_high (Day t)⟩
  · rename_i h1
    split
    · rename_i h2
      exact ⟨h2, not_le.1 h1⟩
    · rename_i h2
      refine ⟨DayFromYear_estimate_low (Day t), ?_⟩
      have e : 1970 + Day t * 400 / 146097 - 1 + 1 = 1970 + Day t * 400 / 146097 := by ring
      rw [e]
      exact not_le.1 h2

theorem YearFromTime_ge (t : Int) (ht : -msPerDay ≤ t) : 1969 ≤ YearFromTime t := by
  have h := (YearFromTime_spec t).2
  have hd : -1 ≤ Day t := by
    unfold Day msPerDay at *
    omega
  by_contra hlt
  have hy : YearFromTime t + 1 ≤ 1969 := by omega
  have : DayFromYear (YearFromTime t + 1) ≤ -365 := by
    unfold DayFromYear
    omega
  omega

/-! ## Facts about the daily quote in a zone with a constant offset -/

theorem dailyQuoteIndex_fixed (offset now : Int)
    (hoff : -msPerDay ≤ offset ∧ offset ≤ msPerDay)
    (hnow : 0 ≤ now ∧ now ≤ 8600000000000000) :
    dailyQuoteIndex (TimeZone.fixed offset) now =
      some ((Day (now + offset) - DayFromYear (YearFromTime (now + offset)) + 1) % 10) := by
  have hspec := YearFromTime_spec (now + offset)
  have hstep := DayFromYear_step (YearFromTime (now + offset))
  have hge := YearFromTime_ge (now + offset) (by unfold msPerDay at *; omega)
  have hday : Day (now + offset) * msPerDay ≤ now + offset ∧
      now + offset < Day (now + offset) * msPerDay + msPerDay := by
    unfold Day msPerDay
    omega
  have hyr : ¬ (0 ≤ YearFromTime (now + offset) ∧ YearFromTime (now + offset) ≤ 99) := by
    omega
  have hclip : TimeClip ((DayFromYear (YearFromTime (now + offset)) - 1) * msPerDay - offset) =
      some ((DayFromYear (YearFromTime (now + offset)) - 1) * msPerDay - offset) := by
    apply TimeClip_of_range <;> (unfold msPerDay at *; omega)
  have hdiv : (now - ((DayFromYear (YearFromTime (now + offset)) - 1) * msPerDay - offset))
      / (1000 * 60 * 60 * 24) =
      Day (now + offset) - DayFromYear (YearFromTime (now + offset)) + 1 := by
    unfold msPerDay at *
    omega
  unfold dailyQuoteIndex JsDate.newDateDayZero JsDate.getFullYear
  simp only [LocalTime, UTC, TimeZone.fixed, MakeDate, MakeTime, if_neg hyr, zero_mul, add_zero,
    hclip, hdiv]
  congr 1
  apply Int.tmod_eq_emod
  · omega
  · decide

theorem getDailyQuote_fixed (offset now : Int)
    (hoff : -msPerDay ≤ offset ∧ offset ≤ msPerDay)
    (hnow : 0 ≤ now ∧ now ≤ 8600000000000000) :
    ∃ q ∈ motivationalQuotes, getDailyQuote (TimeZone.fixed offset) now = some q := by
  unfold getDailyQuote
  rw [dailyQuoteIndex_fixed offset now hoff hnow]
  have h0 : 0 ≤ (Day (now + offset) - DayFromYear (YearFromTime (now + offset)) + 1) % 10 :=
    Int.emod_nonneg _ (by decide)
  have h1 : (Day (now + offset) - DayFromYear (YearFromTime (now + offset)) + 1) % 10 < 10 :=
    Int.emod_lt_of_pos _ (by decide)
  simp only [h0, if_true]
  have hlt : ((Day (now + offset) - DayFromYear (YearFromTime (now + offset)) + 1) % 10).toNat
      < motivationalQuotes.length := by
    have : motivationalQuotes.length = 10 := by decide
    omega
  exact ⟨motivationalQuotes.get ⟨_, hlt⟩, List.get_mem _ _ _, List.get?_eq_get hlt⟩

theorem getDailyQuote_fixed_same_day (offset now later : Int)
    (hoff : -msPerDay ≤ offset ∧ offset ≤ msPerDay)
    (hnow : 0 ≤ now ∧ now ≤ 8600000000000000)
    (hlater : 0 ≤ later ∧ later ≤ 8600000000000000)
    (hday : Day (LocalTime (TimeZone.fixed offset) now) =
      Day (LocalTime (TimeZone.fixed offset) later)) :
    getDailyQuote (TimeZone.fixed offset) now = getDailyQuote (TimeZone.fixed offset) later := by
  have hd : Day (now + offset) = Day (later + offset) := hday
  have hy : YearFromTime (now + offset) = YearFromTime (later + offset) := by
    unfold YearFromTime
    rw [hd]
  unfold getDailyQuote
  rw [dailyQuoteIndex_fixed offset now hoff hnow, dailyQuoteIndex_fixed offset later hoff hlater,
    hd, hy]

/-! ## Claims on owners, stored timestamps and the daily quote -/

/-- C21, the code at the failing input: user 1 owns the sample block.  `User.delete(1)` runs
on a connection on which foreign keys are not enforced (the default, which the code never
changes); it resolves with one deleted row, the table `users` is empty afterwards, and the
time block of user 1 is still stored. -/
theorem user_delete_keeps_time_blocks :
    User.delete false sampleDatabase 1 = ({ users := [], store := sampleDb }, 1) ∧
    ∃ r ∈ (User.delete false sampleDatabase 1).1.store.time_blocks, r.user_id = 1 := by
  decide

/-- C22, the code at the failing input: a process on UTC.  User 1 quick-adds a task for 10:00
(stored as `toISOString` texts, ending "2024-01-01T11:00:00.000Z") and then submits the create
form for 11:00 to 12:00 (stored as the form texts, starting "2024-01-01T11:00").  The end of
the first block and the start of the second denote the same instant, yet the Store's `<`
puts the form text strictly before the other, and `findOverlapping` for the second interval
returns the first block, which it only touches. -/
theorem stored_texts_compare_as_texts :
    (postTimeblocksCreate sampleNumeric sampleDate sampleNow quickAddedDb 1
        validForm).1.time_blocks.map
        (fun r => (r.start_time, r.end_time)) =
      [(SqlValue.text "2024-01-01T10:00:00.000Z", SqlValue.text "2024-01-01T11:00:00.000Z"),
       (SqlValue.text "2024-01-01T11:00", SqlValue.text "2024-01-01T12:00")] ∧
    quickTaskTimes sampleRuntime.tz 1704101400000 1704101400000 (some 10) (some 0) =
      (some 1704103200000, some 1704106800000) ∧
    sampleDate "2024-01-01T11:00" = some 1704106800000 ∧
    sqlLt (SqlValue.text "2024-01-01T11:00") (SqlValue.text "2024-01-01T11:00:00.000Z") =
      true ∧
    dateLt (sampleDate "2024-01-01T11:00") (some 1704106800000) = false ∧
    (TimeBlock.findOverlapping sampleNumeric quickAddedDb 1 "2024-01-01T11:00" "2024-01-01T12:00"
        none).map
        Row.title = ["Call"] := by
  decide

/-- C28, the code at the failing input: a process in New York on 2024-07-01.  At 00:30 local
time (04:30 UTC) and at 12:00 local time (16:00 UTC) the local calendar day is the same, but
the difference to local midnight of 2023-12-31, taken in milliseconds across the start of
daylight saving time, is 182 days and 23.5 hours at the first instant and 183 days and 11
hours at the second: the indices are 2 and 3 and the quotes differ. -/
theorem daily_quote_changes_within_a_day :
    Day (LocalTime newYorkSpring2024 1719808200000) =
      Day (LocalTime newYorkSpring2024 1719849600000) ∧
    dailyQuoteIndex newYorkSpring2024 1719808200000 = some 2 ∧
    dailyQuoteIndex newYorkSpring2024 1719849600000 = some 3 ∧
    getDailyQuote newYorkSpring2024 1719808200000 = motivationalQuotes.get? 2 ∧
    getDailyQuote newYorkSpring2024 1719849600000 = motivationalQuotes.get? 3 ∧
    getDailyQuote newYorkSpring2024 1719808200000 ≠
      getDailyQuote newYorkSpring2024 1719849600000 := by
  decide

/-! ## Facts about failing Store calls -/

theorem Async_postTimeblocksCreate_no_error (numeric : String → Option ℚ)
    (newDate : String → Option Int) (now : String)
    (db : Db) (userId : Nat) (body : TimeBlockForm) :
    Async.postTimeblocksCreate numeric newDate now db userId body none =
      postTimeblocksCreate numeric newDate now db userId body := by
  unfold Async.postTimeblocksCreate postTimeblocksCreate
  simp only [Async.TimeBlock.create, settle]

theorem Async_postTimeblocksEdit_no_error (numeric : String → Option ℚ)
    (newDate : String → Option Int) (now : String)
    (db : Db) (userId id : Nat) (body : TimeBlockForm) :
    Async.postTimeblocksEdit numeric newDate now db userId id body none none =
      postTimeblocksEdit numeric newDate now db userId id body := by
  unfold Async.postTimeblocksEdit postTimeblocksEdit
  simp only [Async.TimeBlock.findById, Async.TimeBlock.update, settle]
  cases TimeBlock.findById db id <;> rfl

theorem Async_postTimeblocksDelete_no_error (db : Db) (userId id : Nat) :
    Async.postTimeblocksDelete db userId id none none = postTimeblocksDelete db userId id := by
  unfold Async.postTimeblocksDelete postTimeblocksDelete
  simp only [Async.TimeBlock.findById, Async.TimeBlock.delete, settle]
  cases TimeBlock.findById db id <;> rfl

theorem Async_postApiQuickTask_no_error (numeric : String → Option ℚ)
    (rt : JsRuntime) (today now : Int) (sqlNow : String)
    (db : Db) (userId : Nat) (taskName taskTime : String) :
    Async.postApiQuickTask numeric rt today now sqlNow db userId taskName taskTime none none =
      postApiQuickTask numeric rt today now sqlNow db userId taskName taskTime := by
  unfold Async.postApiQuickTask postApiQuickTask
  simp only [Async.TimeBlock.findById, Async.TimeBlock.create, settle]

theorem Async_create_failure_reported (numeric : String → Option ℚ)
    (newDate : String → Option Int) (now : String)
    (db : Db) (userId : Nat) (body : TimeBlockForm) (e : SqlError) :
    (Async.postTimeblocksCreate numeric newDate now db userId body (some e)).1 = db ∧
    (Async.postTimeblocksCreate numeric newDate now db userId body (some e)).2.success_msg = none
        := by
  unfold Async.postTimeblocksCreate
  simp only [Async.TimeBlock.create, settle]
  split
  · exact ⟨rfl, rfl⟩
  · split <;> exact ⟨rfl, rfl⟩

theorem Async_edit_failure_reported (numeric : String → Option ℚ)
    (newDate : String → Option Int) (now : String)
    (db : Db) (userId id : Nat) (body : TimeBlockForm) (e : SqlError)
    (errUpdate : Option SqlError) :
    Async.postTimeblocksEdit numeric newDate now db userId id body (some e) errUpdate =
      (db, Response.error "Error updating time block. Please try again."
        (Redirect.timeblocksEdit id)) ∧
    (Async.postTimeblocksEdit numeric newDate now db userId id body none (some e)).1 = db ∧
    (Async.postTimeblocksEdit numeric newDate now db userId id body none (some e)).2.success_msg
      = none := by
  refine ⟨rfl, ?_⟩
  unfold Async.postTimeblocksEdit
  simp only [Async.TimeBlock.findById, Async.TimeBlock.update, settle]
  cases TimeBlock.findById db id with
  | none => exact ⟨rfl, rfl⟩
  | some r =>
    simp only []
    split
    · exact ⟨rfl, rfl⟩
    · split
      · exact ⟨rfl, rfl⟩
      · split <;> exact ⟨rfl, rfl⟩

theorem Async_delete_failure_reported (db : Db) (userId id : Nat) (e : SqlError)
    (errDelete : Option SqlError) :
    Async.postTimeblocksDelete db userId id (some e) errDelete =
      (db, Response.error "Error deleting time block" Redirect.dashboard) ∧
    (Async.postTimeblocksDelete db userId id none (some e)).1 = db ∧
    (Async.postTimeblocksDelete db userId id none (some e)).2.success_msg = none := by
  refine ⟨rfl, ?_⟩
  unfold Async.postTimeblocksDelete
  simp only [Async.TimeBlock.findById, Async.TimeBlock.delete, settle]
  cases TimeBlock.findById db id with
  | none => exact ⟨rfl, rfl⟩
  | some r =>
    simp only []
    split <;> exact ⟨rfl, rfl⟩

theorem Async_quickTask_failure_reported (numeric : String → Option ℚ)
    (rt : JsRuntime) (today now : Int)
    (sqlNow : String) (db : Db) (userId : Nat) (taskName taskTime : String) (e : SqlError)
    (errFind : Option SqlError) (message : String) (timeBlock : Option Row) :
    (Async.postApiQuickTask numeric rt today now sqlNow db userId taskName taskTime (some e)
        errFind).1 = db ∧
    (Async.postApiQuickTask numeric rt today now sqlNow db userId taskName taskTime (some e)
        errFind).2 ≠ QuickTaskReply.ok message timeBlock ∧
    (Async.postApiQuickTask numeric rt today now sqlNow db userId taskName taskTime none
        (some e)).2 ≠ QuickTaskReply.ok message timeBlock := by
  unfold Async.postApiQuickTask
  simp only [Async.TimeBlock.findById, Async.TimeBlock.create, settle]
  split
  · exact ⟨rfl, by simp, by simp⟩
  · split
    · exact ⟨rfl, by simp, by simp⟩
    · exact ⟨rfl, by simp, by simp⟩

/-! ## Claim on Store failures -/

/-- C24: when the database call of a time-block Store operation reports an error `e`, the
operation rejects with `e` (all eight methods), and the handler that made the call answers
with an error, never with success: create, edit and delete set an error flash and no success
flash and return the database unchanged, quick-task replies with status 500 (and keeps the
database unless the failing call is the `findById` after the insert), and the reading
handlers reply with their error. -/
theorem store_failure_is_never_swallowed (numeric : String → Option ℚ) (e : SqlError)
    (newDate : String → Option Int) (julianday : SqlValue → Option Real64)
    (sumReal : List Real64 → Real64) (rt : JsRuntime) (today now : Int) (sqlNow : String)
    (db : Db) (userId id : Nat) (body : TimeBlockForm) (taskName taskTime : String)
    (title : String) (description : Option String) (startTime endTime : String)
    (excludeId : Option Nat) (other : Option SqlError) :
    (Async.TimeBlock.create numeric (some e) db sqlNow userId title description startTime endTime
        = Except.error e ∧
     Async.TimeBlock.update numeric (some e) db sqlNow id title description startTime endTime
        = Except.error e ∧
     Async.TimeBlock.delete (some e) db id = Except.error e ∧
     Async.TimeBlock.findById (some e) db id = Except.error e ∧
     Async.TimeBlock.findByUserId (some e) db userId = Except.error e ∧
     Async.TimeBlock.findByUserIdAndDateRange numeric (some e) db userId startTime endTime
        = Except.error e ∧
     Async.TimeBlock.findOverlapping numeric (some e) db userId startTime endTime excludeId
        = Except.error e ∧
     Async.TimeBlock.getStats (some e) julianday sumReal db userId = Except.error e) ∧
    ((Async.postTimeblocksCreate numeric newDate sqlNow db userId body (some e)).1 = db ∧
     (Async.postTimeblocksCreate numeric newDate sqlNow db userId body (some e)).2.success_msg
        = none) ∧
    (Async.postTimeblocksEdit numeric newDate sqlNow db userId id body (some e) other =
        (db, Response.error "Error updating time block. Please try again."
          (Redirect.timeblocksEdit id)) ∧
     (Async.postTimeblocksEdit numeric newDate sqlNow db userId id body none (some e)).1 = db ∧
     (Async.postTimeblocksEdit numeric newDate sqlNow db userId id body none (some e)).2.success_msg
        = none) ∧
    (Async.postTimeblocksDelete db userId id (some e) other =
        (db, Response.error "Error deleting time block" Redirect.dashboard) ∧
     (Async.postTimeblocksDelete db userId id none (some e)).1 = db ∧
     (Async.postTimeblocksDelete db userId id none (some e)).2.success_msg = none) ∧
    ((Async.postApiQuickTask numeric rt today now sqlNow db userId taskName taskTime (some e)
        other).1 = db ∧
     (∀ message timeBlock,
       (Async.postApiQuickTask numeric rt today now sqlNow db userId taskName taskTime (some e)
          other).2 ≠ QuickTaskReply.ok message timeBlock) ∧
     (∀ message timeBlock,
       (Async.postApiQuickTask numeric rt today now sqlNow db userId taskName taskTime none
          (some e)).2 ≠ QuickTaskReply.ok message timeBlock)) ∧
    (Async.getDashboard db userId (some e) =
        ReadReply.flashError "Error loading dashboard" "/login" ∧
     Async.getTimeblocksEdit newDate db userId id (some e) =
        ReadReply.flashError "Error loading time block" "/dashboard" ∧
     Async.getExport db userId (some e) =
        ReadReply.flashError "Error exporting time blocks" "/dashboard" ∧
     Async.getApiTimeblocks db userId (some e) =
        ReadReply.jsonError 500 "Failed to fetch time blocks") := by
  refine ⟨⟨rfl, rfl, rfl, rfl, rfl, rfl, rfl, rfl⟩,
    Async_create_failure_reported numeric newDate sqlNow db userId body e,
    Async_edit_failure_reported numeric newDate sqlNow db userId id body e other,
    Async_delete_failure_reported db userId id e other,
    ⟨(Async_quickTask_failure_reported numeric rt today now sqlNow db userId taskName taskTime e
        other
        "" none).1,
     fun message timeBlock =>
       (Async_quickTask_failure_reported numeric rt today now sqlNow db userId taskName taskTime e
         other message timeBlock).2.1,
     fun message timeBlock =>
       (Async_quickTask_failure_reported numeric rt today now sqlNow db userId taskName taskTime e
         other message timeBlock).2.2⟩,
    ⟨rfl, rfl, rfl, rfl⟩⟩

/-- Witness for C24: on the sample database the create call fails with an I/O error while
user 1 submits the valid form; the database is unchanged and the answer is the error of the
`catch` branch. -/
theorem store_failure_is_never_swallowed_witness :
    Async.postTimeblocksCreate sampleNumeric sampleDate sampleNow sampleDb 1 validForm (some
        sampleError) =
      (sampleDb, Response.error "Error creating time block. Please try again."
        Redirect.timeblocksCreate) ∧
    (Async.postTimeblocksCreate sampleNumeric sampleDate sampleNow sampleDb 1 validForm
      (some sampleError)).2.success_msg = none :=
  ⟨by decide,
   (store_failure_is_never_swallowed sampleNumeric sampleError sampleDate sampleJulianday
      sumPlain sampleRuntime 1704101400000 1704101400000 sampleNow sampleDb 1 1 validForm
      "Call" "10:00" "Review" none "2024-01-01T11:00" "2024-01-01T12:00" none none).2.1.2⟩

end FocusFlow
